import Mathlib

/-!
Shallow embedding of the Sovereign Prep account-intelligence pipeline
(merger, account analyzer, participant profiler, goal generator,
talking-point generator, competitive-intelligence extractor, dossier
assembler and validator), translated from the TypeScript sources.

Modelling conventions, used throughout:
* JavaScript `Date` values are epoch milliseconds (`Int`); the wall clock
  `new Date()` / `Date.now()` is an explicit `now : Int` parameter.
* `Math.random().toString(36).slice(2, 8)` (the action-item id suffix) is an
  explicit stream `rand : Nat → String`; the merger threads a draw counter.
* JavaScript `Array.prototype.sort` is stable with the numeric comparators the
  code uses, so it is modelled by a stable insertion sort `stableSortBy`.
* A JavaScript `Map` (insertion-ordered, set replaces in place) is an
  association list with `alGet` / `alSet`.
* String scanning (`includes`, `indexOf`, `slice`, `toLowerCase`) is done on
  the underlying character lists; the repository's data is ASCII, where
  UTF-16 code-unit indices and character indices agree.
-/

namespace SP

/-- Stable insertion of `a` into `l`: `a` goes in front of the first element
`b` with `le a b` (so, processing a list from the right, elements that
compare equal keep their original relative order, as JS stable sort does). -/
def insertLe {α : Type} (le : α → α → Bool) (a : α) : List α → List α
  | [] => [a]
  | b :: t => if le a b then a :: b :: t else b :: insertLe le a t

/-- Stable sort modelling `Array.prototype.sort` with a consistent numeric
comparator (`le a b` meaning "comparator(a,b) ≤ 0"). -/
def stableSortBy {α : Type} (le : α → α → Bool) : List α → List α
  | [] => []
  | a :: t => insertLe le a (stableSortBy le t)

theorem insertLe_perm {α : Type} (le : α → α → Bool) (a : α) (l : List α) :
    List.Perm (insertLe le a l) (a :: l) := by
  induction l with
  | nil => simp [insertLe]
  | cons b t ih =>
      simp only [insertLe]
      by_cases h : le a b
      · simp [h]
      · simp only [h, if_neg]
        exact List.Perm.trans (List.Perm.cons b ih) (List.Perm.swap a b t)

theorem stableSortBy_perm {α : Type} (le : α → α → Bool) (l : List α) :
    List.Perm (stableSortBy le l) l := by
  induction l with
  | nil => simp [stableSortBy]
  | cons a t ih =>
      exact List.Perm.trans (insertLe_perm le a (stableSortBy le t)) (List.Perm.cons a ih)

theorem pairwise_insertLe {α : Type} (le : α → α → Bool)
    (htot : ∀ a b, le a b = true ∨ le b a = true)
    (htrans : ∀ a b c, le a b = true → le b c = true → le a c = true)
    (a : α) (l : List α) (h : List.Pairwise (fun x y => le x y = true) l) :
    List.Pairwise (fun x y => le x y = true) (insertLe le a l) := by
  induction l with
  | nil => simp [insertLe]
  | cons b t ih =>
      rcases h with _ | ⟨hb, ht⟩
      by_cases hab : le a b = true
      · rw [insertLe, if_pos hab]
        refine List.Pairwise.cons ?_ (List.Pairwise.cons hb ht)
        intro x hx
        rcases List.mem_cons.mp hx with hx | hx
        · subst hx; exact hab
        · exact htrans a b x hab (hb x hx)
      · have hba : le b a = true := by
          rcases htot a b with h1 | h1
          · exact absurd h1 hab
          · exact h1
        rw [insertLe, if_neg hab]
        refine List.Pairwise.cons ?_ (ih ht)
        intro x hx
        rcases List.mem_cons.mp ((insertLe_perm le a t).mem_iff.mp hx) with hx | hx
        · subst hx; exact hba
        · exact hb x hx

theorem pairwise_stableSortBy {α : Type} (le : α → α → Bool)
    (htot : ∀ a b, le a b = true ∨ le b a = true)
    (htrans : ∀ a b c, le a b = true → le b c = true → le a c = true)
    (l : List α) :
    List.Pairwise (fun x y => le x y = true) (stableSortBy le l) := by
  induction l with
  | nil => simp [stableSortBy]
  | cons a t ih => exact pairwise_insertLe le htot htrans a (stableSortBy le t) ih

/-- First component of an association-list lookup (JS `Map.get`). -/
def alGet {κ α : Type} [DecidableEq κ] : List (κ × α) → κ → Option α
  | [], _ => none
  | (k, v) :: t, key => if k = key then some v else alGet t key

/-- JS `Map.set`: replace in place when the key exists, else append. -/
def alSet {κ α : Type} [DecidableEq κ] : List (κ × α) → κ → α → List (κ × α)
  | [], key, v => [(key, v)]
  | (k, w) :: t, key, v => if k = key then (key, v) :: t else (k, w) :: alSet t key v

theorem alSet_keys_of_mem {κ α : Type} [DecidableEq κ] (l : List (κ × α)) (key : κ) (v : α)
    (h : key ∈ l.map Prod.fst) : (alSet l key v).map Prod.fst = l.map Prod.fst := by
  induction l with
  | nil => simp at h
  | cons p t ih =>
      obtain ⟨k, w⟩ := p
      by_cases hk : k = key
      · subst hk; simp [alSet]
      · simp only [List.map_cons, List.mem_cons] at h
        rcases h with h | h
        · exact absurd h.symm hk
        · simp [alSet, hk, ih h]

theorem alSet_keys_of_not_mem {κ α : Type} [DecidableEq κ] (l : List (κ × α)) (key : κ) (v : α)
    (h : key ∉ l.map Prod.fst) : (alSet l key v).map Prod.fst = l.map Prod.fst ++ [key] := by
  induction l with
  | nil => simp [alSet]
  | cons p t ih =>
      obtain ⟨k, w⟩ := p
      simp only [List.map_cons, List.mem_cons] at h
      push_neg at h
      simp [alSet, Ne.symm h.1, ih h.2]

theorem alSet_keys_nodup {κ α : Type} [DecidableEq κ] (l : List (κ × α)) (key : κ) (v : α)
    (h : (l.map Prod.fst).Nodup) : ((alSet l key v).map Prod.fst).Nodup := by
  by_cases hm : key ∈ l.map Prod.fst
  · rw [alSet_keys_of_mem l key v hm]; exact h
  · rw [alSet_keys_of_not_mem l key v hm]
    simpa using List.Nodup.append h (List.nodup_singleton key) (by simpa using hm)

/-- `s.toLowerCase()` (character-wise; the data is ASCII). -/
def lowerStr (s : String) : String := ⟨s.data.map Char.toLower⟩

def isPrefixL : List Char → List Char → Bool
  | [], _ => true
  | _ :: _, [] => false
  | a :: as, b :: bs => a == b && isPrefixL as bs

/-- `hay.includes(needle)` on character lists. -/
def containsL (needle : List Char) : List Char → Bool
  | [] => isPrefixL needle []
  | h :: t => isPrefixL needle (h :: t) || containsL needle t

/-- JS `hay.includes(needle)`. -/
def containsStr (hay needle : String) : Bool := containsL needle.data hay.data

/-- JS `hay.indexOf(needle)`: index of the first occurrence, `none` for -1. -/
def idxOfL (needle : List Char) : List Char → Option Nat
  | [] => if isPrefixL needle [] then some 0 else none
  | h :: t =>
      if isPrefixL needle (h :: t) then some 0
      else (idxOfL needle t).map (· + 1)

def idxOfStr (hay needle : String) : Option Nat := idxOfL needle.data hay.data

/-- JS `s.indexOf(c)` for a single character. -/
def idxOfChar (s : String) (c : Char) : Option Nat := idxOfL [c] s.data

/-- JS `s.lastIndexOf(c)` for a single character. -/
def lastIdxOfChar (s : String) (c : Char) : Option Nat :=
  (idxOfL [c] s.data.reverse).map (fun i => s.data.length - 1 - i)

/-- JS `s.slice(start, stop)` for already-clamped `0 ≤ start ≤ stop`. -/
def sliceStr (s : String) (start stop : Nat) : String :=
  ⟨(s.data.take stop).drop start⟩

/-- JS `s.slice(0, n)`. -/
def takeStr (s : String) (n : Nat) : String := ⟨s.data.take n⟩

/-- Number of characters (= UTF-16 code units on this ASCII data): `s.length`. -/
def lenStr (s : String) : Nat := s.data.length

/-- JS `s.replace(/"/g, '')`. -/
def stripQuotes (s : String) : String := ⟨s.data.filter (fun c => c != '"')⟩

/-- `Math.round (num / den)` for `den > 0` (round half toward +infinity). -/
def jsRoundDiv (num den : Int) : Int := Int.fdiv (2 * num + den) (2 * den)

/-! ### Dates

Epoch milliseconds.  `dateUtils.daysBetween` is
`Math.ceil(|t2 − t1| / 86400000)`; `daysAgo(d)` is `daysBetween(d, now)`. -/

def msPerDay : Int := 86400000

def daysBetweenMs (t1 t2 : Int) : Int := (((t2 - t1).natAbs + 86399999) / 86400000 : Nat)

def daysAgoMs (now d : Int) : Int := daysBetweenMs d now

/-- Civil date (year, month, day) from days since 1970-01-01 (proleptic
Gregorian, as `Date.prototype.toISOString` uses). -/
def civilFromDays (z0 : Int) : Int × Nat × Nat :=
  let z := z0 + 719468
  let era := Int.fdiv z 146097
  let doe := (z - era * 146097).toNat
  let yoe := (doe - doe / 1460 + doe / 36524 - doe / 146096) / 365
  let y : Int := (yoe : Int) + era * 400
  let doy := doe - (365 * yoe + yoe / 4 - yoe / 100)
  let mp := (5 * doy + 2) / 153
  let d := doy - (153 * mp + 2) / 5 + 1
  let m := if mp < 10 then mp + 3 else mp - 9
  (if m ≤ 2 then y + 1 else y, m, d)

def pad2 (n : Nat) : String := if n < 10 then "0" ++ toString n else toString n

def pad4 (n : Int) : String :=
  let s := toString n.toNat
  if n.toNat < 10 then "000" ++ s
  else if n.toNat < 100 then "00" ++ s
  else if n.toNat < 1000 then "0" ++ s
  else s

/-- `new Date(ms).toISOString().split('T')[0]`: the UTC calendar date of the
day index `day` (days since epoch), formatted `YYYY-MM-DD`. -/
def formatDateKey (day : Int) : String :=
  let c := civilFromDays day
  pad4 c.1 ++ "-" ++ pad2 c.2.1 ++ "-" ++ pad2 c.2.2

/-! ### Data model (src/types) -/

/-- `TimelineEvent.type` (kinds `email`, `stage-change`, `action-item` are never
produced by the merger but belong to the type). -/
inductive EventType | call | email | meeting | note | stageChange | actionItemKind
deriving DecidableEq, Repr

structure TimelineEvent where
  id : String
  date : Int
  type : EventType
  title : String
  description : Option String := none
  participants : Option (List String) := none
  duration : Option Int := none
  transcriptId : Option String := none
deriving DecidableEq, Repr

inductive Owner | ours | theirs
deriving DecidableEq, Repr

inductive Status | pending | completed | overdue
deriving DecidableEq, Repr

structure ActionItem where
  id : String
  description : String
  owner : Owner
  assignee : Option String := none
  dueDate : Option Int := none
  createdDate : Int
  status : Status
  source : Option String := none
  daysOverdue : Option Int := none
deriving DecidableEq, Repr

inductive Severity | high | medium | low
deriving DecidableEq, Repr

structure Risk where
  id : String
  type : String
  severity : Severity
  description : String
  detectedDate : Int
  mitigationSuggestion : Option String := none
deriving DecidableEq, Repr

inductive Momentum | accelerating | stable | stalling | atRisk
deriving DecidableEq, Repr

/-- The string a `Momentum` value interpolates as in the TS template strings. -/
def momentumText : Momentum → String
  | .accelerating => "accelerating"
  | .stable => "stable"
  | .stalling => "stalling"
  | .atRisk => "at-risk"

inductive Role
  | champion | blocker | economicBuyer | technicalEvaluator | decisionMaker
  | influencer | unknown
deriving DecidableEq, Repr

inductive Influence | high | medium | low
deriving DecidableEq, Repr

inductive InteractionType | call | email | meeting | slack
deriving DecidableEq, Repr

structure Interaction where
  id : String
  date : Int
  type : InteractionType
  title : String
  duration : Option Int := none
  summary : Option String := none
  keyPoints : Option (List String) := none
deriving DecidableEq, Repr

/-- `Partial<Participant>` as the merger builds it (every field optional, as
in the TS `Partial` type). -/
structure PartialParticipant where
  email : Option String := none
  name : Option String := none
  company : Option String := none
  title : Option String := none
  role : Option Role := none
  influence : Option Influence := none
  linkedInUrl : Option String := none
  background : Option String := none
  previousInteractions : Option (List Interaction) := none
  communicationNotes : Option String := none
  whatTheyCareAbout : Option (List String) := none
  lastInteractionDate : Option Int := none
  totalInteractions : Option Nat := none
deriving DecidableEq, Repr

structure Contact where
  id : String
  email : String
  name : String
  title : Option String := none
deriving DecidableEq, Repr

/-- `Partial<Account>`: every field of `Account` optional; the merger and the
assembler both build values of this shape. -/
structure MergedAccount where
  id : Option String := none
  name : Option String := none
  domain : Option String := none
  dealStage : Option String := none
  dealValue : Option Int := none
  closeDate : Option Int := none
  daysInStage : Option Int := none
  lastContactDate : Option Int := none
  momentum : Option Momentum := none
  contacts : Option (List Contact) := none
  timeline : Option (List TimelineEvent) := none
  openActionItems : Option (List ActionItem) := none
  risks : Option (List Risk) := none
deriving DecidableEq, Repr

/-- The full `Account` type. -/
structure Account where
  id : String
  name : String
  domain : String
  dealStage : String
  dealValue : Int
  closeDate : Option Int := none
  daysInStage : Int
  lastContactDate : Int
  momentum : Momentum
  contacts : List Contact
  timeline : List TimelineEvent
  openActionItems : List ActionItem
  risks : List Risk
  notes : Option String := none
  industry : Option String := none
  employeeCount : Option Int := none
  headquarters : Option String := none
deriving DecidableEq, Repr

/-! ### Source record types (src/sources) -/

structure FFActionItem where
  text : String
  assignee : Option String := none
  /-- ISO date string in the source, modelled as parsed epoch ms. -/
  dueDate : Option Int := none
deriving DecidableEq, Repr

/-- `FirefliesTranscript` (fields `sentences`, `keywords`, `overview`,
`organizerEmail` are never read by the pipeline and are omitted). -/
structure FFTranscript where
  id : String
  title : String
  date : Int
  duration : Int
  participants : List String
  summary : Option String := none
  actionItems : List FFActionItem := []
deriving DecidableEq, Repr

structure SlackMessage where
  channel : String
  user : String
  text : String
  /-- ISO timestamp string in the source, modelled as parsed epoch ms. -/
  timestamp : Int
deriving DecidableEq, Repr

/-- `SlackMention` (only counted / pattern-logged by the pipeline). -/
structure SlackMention where
  sentiment : String
  context : String
deriving DecidableEq, Repr

structure CalAttendee where
  email : String
  displayName : Option String := none
deriving DecidableEq, Repr

structure CalendarEvent where
  id : String
  summary : String
  description : Option String := none
  start : Int
  /-- `end` in the TS source (reserved word in Lean). -/
  finish : Int
  attendees : List CalAttendee
deriving DecidableEq, Repr

structure FirefliesData where
  transcripts : List FFTranscript
deriving DecidableEq, Repr

structure SlackData where
  mentions : List SlackMention
  messages : List SlackMessage
deriving DecidableEq, Repr

structure CalendarData where
  events : List CalendarEvent
deriving DecidableEq, Repr

structure MergeOptions where
  accountName : String
  accountDomain : String
  daysOfHistory : Option Nat := none
deriving DecidableEq, Repr

/-! ### Email utilities (src/sources/calendar.ts) -/

/-- `extractDomain`: the text after the last `@`, when nonempty
(`email.match(/@([^@]+)$/)`). -/
def extractDomain (email : String) : Option String :=
  match lastIdxOfChar email '@' with
  | none => none
  | some i =>
      let rest := ⟨email.data.drop (i + 1)⟩
      if lenStr rest = 0 then none else some rest

/-- Internal company domains of `src/sources/calendar.ts`. -/
def INTERNAL_DOMAINS : List String := ["runlayer.com", "anysourcehq.com"]

/-- `isInternalEmail` of `src/sources/calendar.ts` (used by the merger). -/
def isInternalEmail (email : String) : Bool :=
  match extractDomain email with
  | none => false
  | some domain => INTERNAL_DOMAINS.any (fun d => lowerStr domain = lowerStr d)

/-- `split(c)` on a character list (JS `String.prototype.split` with a
one-character separator). -/
def splitOnCharL (c : Char) : List Char → List (List Char)
  | [] => [[]]
  | h :: t =>
      let rest := splitOnCharL c t
      if h = c then [] :: rest
      else
        match rest with
        | [] => [[h]]
        | r :: rs => (h :: r) :: rs

/-- The dossier assembler's own `isInternalEmail`, with its own domain list
(`email.split('@')[1]?.toLowerCase() ?? ''`). -/
def isInternalEmailAsm (email : String) : Bool :=
  let internalDomains : List String := ["runlayer.com", "anthropic.com"]
  let parts := splitOnCharL '@' email.data
  let domain := lowerStr ⟨(parts.getD 1 [])⟩
  internalDomains.any (fun d => domain = d)

/-! ### Merger (src/intelligence/merger.ts)

`MergedData.meetings` is declared in the source but never filled or read by
the pipeline; it is omitted. -/

structure MergedData where
  account : MergedAccount
  participants : List (String × PartialParticipant)
  timeline : List TimelineEvent
  actionItems : List ActionItem
deriving DecidableEq, Repr

/-- `convertFirefliesActionItem`; `suffix` is the drawn
`Math.random().toString(36).slice(2, 8)` value. -/
def convertFirefliesActionItem (suffix : String) (item : FFActionItem)
    (transcript : FFTranscript) : ActionItem :=
  let isExternal := match item.assignee with
    | some a => !isInternalEmail a
    | none => false
  { id := "ff-ai-" ++ transcript.id ++ "-" ++ suffix
    description := item.text
    owner := if isExternal then .theirs else .ours
    assignee := item.assignee
    dueDate := item.dueDate
    createdDate := transcript.date
    status := .pending
    source := some transcript.title }

/-- The fresh registry entry `mergeFirefliesData` creates for an unseen
participant email. -/
def freshFFParticipant (email : String) : PartialParticipant :=
  { email := some email
    name := some ""
    company := some ((extractDomain email).getD "")
    title := some ""
    role := some .unknown
    influence := some .medium
    previousInteractions := some [] }

/-- One participant email's registry update in `mergeFirefliesData`. -/
def ffParticipantStep (t : FFTranscript)
    (ps : List (String × PartialParticipant)) (email : String) :
    List (String × PartialParticipant) :=
  if isInternalEmail email then ps
  else
    let existing := (alGet ps email).getD (freshFFParticipant email)
    let interaction : Interaction :=
      { id := "ff-" ++ t.id, date := t.date, type := .call, title := t.title
        duration := some t.duration, summary := t.summary }
    let upd := { existing with
      previousInteractions := some ((existing.previousInteractions.getD []) ++ [interaction])
      lastInteractionDate := some t.date
      totalInteractions := some ((existing.totalInteractions.getD 0) + 1) }
    alSet ps email upd

/-- One action item's conversion in `mergeFirefliesData`, drawing the next
random id suffix. -/
def ffActionItemStep (rand : Nat → String) (t : FFTranscript)
    (p : List ActionItem × Nat) (item : FFActionItem) : List ActionItem × Nat :=
  (p.1 ++ [convertFirefliesActionItem (rand p.2) item t], p.2 + 1)

/-- One transcript's contribution in `mergeFirefliesData`; threads the random
draw counter used for action-item id suffixes. -/
def ffProcessTranscript (rand : Nat → String) (acc : MergedData × Nat)
    (t : FFTranscript) : MergedData × Nat :=
  let r := acc.1
  let event : TimelineEvent :=
    { id := "ff-" ++ t.id, date := t.date, type := .call, title := t.title
      description := t.summary, participants := some t.participants
      duration := some t.duration, transcriptId := some t.id }
  let r := { r with timeline := r.timeline ++ [event] }
  let ps := t.participants.foldl (ffParticipantStep t) r.participants
  let r := { r with participants := ps }
  let drawn := t.actionItems.foldl (ffActionItemStep rand t) ([], acc.2)
  ({ r with actionItems := r.actionItems ++ drawn.1 }, drawn.2)

def mergeFirefliesData (rand : Nat → String) (r : MergedData) (ctr : Nat)
    (data : FirefliesData) : MergedData × Nat :=
  data.transcripts.foldl (ffProcessTranscript rand) (r, ctr)

/-- `messagesByDate`: a JS `Map` keyed by the `YYYY-MM-DD` date key, in order
of first occurrence; modelled keyed by the UTC day index (the formatter
`formatDateKey` is injective on day indices). -/
def groupMessagesByDay (messages : List SlackMessage) : List (Int × List SlackMessage) :=
  messages.foldl (fun acc m =>
    let dateKey := Int.fdiv m.timestamp msPerDay
    let existing := (alGet acc dateKey).getD []
    alSet acc dateKey (existing ++ [m])) []

def mergeSlackData (r : MergedData) (data : SlackData) (options : MergeOptions) :
    MergedData :=
  let byDay := groupMessagesByDay data.messages
  let events := byDay.filterMap (fun g =>
    if g.2.length ≥ 3 then
      let n := g.2.length
      some ({ id := "slack-" ++ formatDateKey g.1
              date := g.1 * msPerDay
              type := .note
              title := s!"{n} Slack mentions"
              description := some ("Internal discussion about " ++ options.accountName)
            } : TimelineEvent)
    else none)
  { r with timeline := r.timeline ++ events }

/-- One attendee's registry update in `mergeCalendarData`. -/
def calAttendeeStep (ps : List (String × PartialParticipant)) (attendee : CalAttendee) :
    List (String × PartialParticipant) :=
  if isInternalEmail attendee.email then ps
  else
    let existing := (alGet ps attendee.email).getD
      { email := some attendee.email
        name := some (attendee.displayName.getD "")
        company := some ((extractDomain attendee.email).getD "")
        title := some ""
        role := some .unknown
        influence := some .medium
        previousInteractions := some [] }
    let existing :=
      match attendee.displayName with
      | some dn =>
          if dn ≠ "" ∧ (existing.name.getD "") = "" then { existing with name := some dn }
          else existing
      | none => existing
    alSet ps attendee.email existing

/-- One calendar event's contribution in `mergeCalendarData`. -/
def calProcessEvent (options : MergeOptions) (r : MergedData) (event : CalendarEvent) :
    MergedData :=
  let hasAccountAttendee := event.attendees.any (fun a =>
    match extractDomain a.email with
    | some domain => lowerStr domain = lowerStr options.accountDomain
    | none => false)
  if !hasAccountAttendee then r
  else
    let timelineEvent : TimelineEvent :=
      { id := "cal-" ++ event.id, date := event.start, type := .meeting
        title := event.summary, description := event.description
        participants := some (event.attendees.map (·.email))
        duration := some (jsRoundDiv (event.finish - event.start) 60000) }
    let r := { r with timeline := r.timeline ++ [timelineEvent] }
    let ps := event.attendees.foldl calAttendeeStep r.participants
    { r with participants := ps }

def mergeCalendarData (r : MergedData) (data : CalendarData) (options : MergeOptions) :
    MergedData :=
  data.events.foldl (calProcessEvent options) r

/-- `deduplicateParticipants`: sort each participant's interactions newest
first (stable, comparator `b.date − a.date`) and set `lastInteractionDate`
from the first entry. -/
def dedupOneParticipant (kp : String × PartialParticipant) :
    String × PartialParticipant :=
  let p := kp.2
  let p := match p.previousInteractions with
    | some ints =>
        let sorted := stableSortBy
          (fun a b : Interaction => decide (b.date ≤ a.date)) ints
        { p with previousInteractions := some sorted }
    | none => p
  let p := match p.previousInteractions with
    | some (first :: _) => { p with lastInteractionDate := some first.date }
    | _ => p
  (kp.1, p)

def deduplicateParticipants (r : MergedData) : MergedData :=
  { r with participants := r.participants.map dedupOneParticipant }

/-- `sortTimeline`: ascending by date (stable, comparator `a.date − b.date`). -/
def sortTimeline (r : MergedData) : MergedData :=
  { r with timeline := stableSortBy (fun a b => decide (a.date ≤ b.date)) r.timeline }

def participantToContact (kp : String × PartialParticipant) : Contact :=
  { id := kp.2.email.getD ""
    email := kp.2.email.getD ""
    name := kp.2.name.getD ""
    title := kp.2.title }

def isOpenItem (item : ActionItem) : Bool :=
  item.status == .pending || item.status == .overdue

def computeAccountMetrics (r : MergedData) : MergedData :=
  let account := r.account
  let account := match r.timeline.getLast? with
    | some lastEvent => { account with lastContactDate := some lastEvent.date }
    | none => account
  let openItems := r.actionItems.filter isOpenItem
  let contacts := r.participants.map participantToContact
  let account := { account with openActionItems := some openItems, contacts := some contacts }
  let account := { account with timeline := some r.timeline }
  { r with account := account }

/-- The freshly initialised `MergedData` of `mergeAllData`. -/
def initMergedData (options : MergeOptions) : MergedData :=
  { account :=
      { name := some options.accountName
        domain := some options.accountDomain
        contacts := some []
        timeline := some []
        openActionItems := some []
        risks := some [] }
    participants := []
    timeline := []
    actionItems := [] }

/-- `mergeAllData`, with the random id-suffix stream explicit. -/
def mergeAllData (fireflies : FirefliesData) (slack : SlackData)
    (calendar : CalendarData) (options : MergeOptions) (rand : Nat → String) :
    MergedData :=
  let r : MergedData := initMergedData options
  let rc := mergeFirefliesData rand r 0 fireflies
  let r := mergeSlackData rc.1 slack options
  let r := mergeCalendarData r calendar options
  let r := deduplicateParticipants r
  let r := sortTimeline r
  computeAccountMetrics r

/-- `markOverdueItems`: the separate overdue-marking pass exported by the
merger module (never invoked by `assembleDossier`). -/
def markOverdueItems (now : Int) (items : List ActionItem) : List ActionItem :=
  items.map (fun item =>
    if item.status ≠ .pending then item
    else match item.dueDate with
      | none => item
      | some due =>
          if due < now then
            { item with status := .overdue, daysOverdue := some (daysAgoMs now due) }
          else item)

/-! ### Account analyzer (src/intelligence/accountAnalyzer.ts) -/

inductive Velocity | high | medium | low
deriving DecidableEq, Repr

structure AccountAnalysis where
  momentum : Momentum
  momentumScore : Int
  engagementVelocity : Velocity
  daysInStage : Int
  daysSinceLastContact : Int
  risks : List Risk
  healthScore : Int
  insights : List String
deriving DecidableEq, Repr

structure AnalysisOptions where
  currentDealStage : Option String := none
  currentDealValue : Option Int := none
  stageStartDate : Option Int := none
deriving DecidableEq, Repr

/-- `calculateDaysSinceLastContact`: `999` sentinel on an empty timeline, else
`daysAgo` of the most recent event (found by a descending stable sort). -/
def calculateDaysSinceLastContact (now : Int) (timeline : List TimelineEvent) : Int :=
  match stableSortBy (fun a b : TimelineEvent => decide (b.date ≤ a.date)) timeline with
  | [] => 999
  | lastEvent :: _ => daysAgoMs now lastEvent.date

/-- `calculateEngagementVelocity`.  `thirtyDaysAgo` (a calendar
`setDate(getDate() − 30)`) is modelled as `now − 30` days, exact in a
fixed-offset timezone.  `(n / 30) * 7 ≥ 2 ↔ 7n ≥ 60` and
`(n / 30) * 7 ≥ 0.5 ↔ 14n ≥ 30`, exactly (no float rounding at play). -/
def calculateEngagementVelocity (now : Int) (timeline : List TimelineEvent) : Velocity :=
  let thirtyDaysAgo := now - 30 * msPerDay
  let recentEvents := timeline.filter (fun e => decide (e.date ≥ thirtyDaysAgo))
  let n := recentEvents.length
  if 7 * n ≥ 60 then .high
  else if 14 * n ≥ 30 then .medium
  else .low

/-- `calculateMomentumScore`, with the source's `else if` chain kept verbatim
(including the unreachable `> 30` branch). -/
def calculateMomentumScore (now : Int) (data : MergedData)
    (daysSinceLastContact : Int) : Int :=
  let score : Int := 50
  let score :=
    if daysSinceLastContact ≤ 3 then score + 20
    else if daysSinceLastContact ≤ 7 then score + 10
    else if daysSinceLastContact > 14 then score - 20
    else if daysSinceLastContact > 30 then score - 40
    else score
  let participantCount := data.participants.length
  let score :=
    if participantCount ≥ 5 then score + 15
    else if participantCount ≥ 3 then score + 10
    else if participantCount < 2 then score - 10
    else score
  let recentCalls := data.timeline.filter
    (fun e => e.type == .call && decide (daysAgoMs now e.date ≤ 14))
  let score :=
    if recentCalls.length ≥ 2 then score + 15
    else if recentCalls.length ≥ 1 then score + 5
    else score
  let overdueOurs := data.actionItems.filter
    (fun i => i.owner == .ours && i.status == .overdue)
  let score := score - overdueOurs.length * 5
  let overdueTheirs := data.actionItems.filter
    (fun i => i.owner == .theirs && i.status == .overdue)
  let score := score - overdueTheirs.length * 3
  max 0 (min 100 score)

def scoreMomentum (score : Int) : Momentum :=
  if score ≥ 70 then .accelerating
  else if score ≥ 50 then .stable
  else if score ≥ 30 then .stalling
  else .atRisk

def calculateHealthScore (momentumScore : Int) (risks : List Risk)
    (actionItems : List ActionItem) : Int :=
  let highRisks := (risks.filter (fun r => r.severity == .high)).length
  let mediumRisks := (risks.filter (fun r => r.severity == .medium)).length
  let score := momentumScore - highRisks * 15 - mediumRisks * 5
  let overdueItems := (actionItems.filter (fun i => i.status == .overdue)).length
  let score := score - overdueItems * 3
  max 0 (min 100 score)

def detectRisks (now : Int) (data : MergedData) (daysSinceLastContact : Int)
    (daysInStage : Int) : List Risk :=
  let risks : List Risk := []
  let risks :=
    if daysSinceLastContact > 7 then
      risks ++ [{ id := "risk-stale-comm", type := "timeline"
                  severity := if daysSinceLastContact > 14 then .high else .medium
                  description := s!"No contact in {daysSinceLastContact} days"
                  detectedDate := now
                  mitigationSuggestion := some "Schedule a check-in call or send an update" }]
    else risks
  let risks :=
    if daysInStage > 30 then
      risks ++ [{ id := "risk-stuck-stage", type := "timeline"
                  severity := if daysInStage > 60 then .high else .medium
                  description := s!"Deal has been in current stage for {daysInStage} days"
                  detectedDate := now
                  mitigationSuggestion := some "Identify and address blockers to move forward" }]
    else risks
  let risks :=
    if data.participants.length < 3 then
      risks ++ [{ id := "risk-single-thread", type := "stakeholder"
                  severity := .medium
                  description := "Limited multi-threading - only engaging few stakeholders"
                  detectedDate := now
                  mitigationSuggestion := some "Identify and engage additional decision makers" }]
    else risks
  let overdueOurs := data.actionItems.filter
    (fun i => i.owner == .ours && i.status == .overdue)
  let risks :=
    if overdueOurs.length > 0 then
      let n := overdueOurs.length
      risks ++ [{ id := "risk-overdue-ours", type := "timeline"
                  severity := if overdueOurs.length > 2 then .high else .medium
                  description := s!"{n} overdue action items on our side"
                  detectedDate := now
                  mitigationSuggestion := some "Complete overdue items or communicate new timeline" }]
    else risks
  let overdueTheirs := data.actionItems.filter
    (fun i => i.owner == .theirs && i.status == .overdue)
  let risks :=
    if overdueTheirs.length > 0 then
      let n := overdueTheirs.length
      risks ++ [{ id := "risk-overdue-theirs", type := "timeline"
                  severity := if overdueTheirs.length > 2 then .high else .medium
                  description := s!"{n} overdue action items waiting on customer"
                  detectedDate := now
                  mitigationSuggestion := some "Follow up on pending items and offer assistance" }]
    else risks
  let profiles := data.participants.map Prod.snd
  let hasChampion := profiles.any (fun p => p.role == some .champion)
  let risks :=
    if !hasChampion && data.participants.length > 0 then
      risks ++ [{ id := "risk-no-champion", type := "stakeholder"
                  severity := .medium
                  description := "No clear internal champion identified"
                  detectedDate := now
                  mitigationSuggestion := some "Identify and cultivate an internal advocate" }]
    else risks
  let hasEconomicBuyer := profiles.any (fun p => p.role == some .economicBuyer)
  let risks :=
    if !hasEconomicBuyer && data.participants.length ≥ 3 then
      risks ++ [{ id := "risk-no-buyer", type := "stakeholder"
                  severity := .high
                  description := "Economic buyer not yet engaged"
                  detectedDate := now
                  mitigationSuggestion := some "Get introduction to budget holder before POC ends" }]
    else risks
  risks

def generateInsights (now : Int) (data : MergedData) (momentum : Momentum)
    (risks : List Risk) : List String :=
  let insights : List String :=
    match momentum with
    | .accelerating => ["Strong momentum - deal is progressing well"]
    | .stable => ["Stable engagement - maintain current cadence"]
    | .stalling => ["Momentum slowing - proactive outreach recommended"]
    | .atRisk => ["Deal at risk - immediate action needed"]
  let participantCount := data.participants.length
  let insights :=
    if participantCount ≥ 5 then
      insights ++ [s!"Strong multi-threading with {participantCount}+ stakeholders engaged"]
    else insights
  let highSeverityRisks := risks.filter (fun r => r.severity == .high)
  let insights := insights ++ highSeverityRisks.filterMap (fun r =>
    r.mitigationSuggestion.map (fun m => "Action needed: " ++ m))
  let recentActivity := data.timeline.filter (fun e => decide (daysAgoMs now e.date ≤ 7))
  if recentActivity.length ≥ 3 then
    insights ++ ["High recent activity indicates active engagement"]
  else insights

/-- `analyzeAccount` (the assembler calls it with `options = {}`). -/
def analyzeAccount (now : Int) (data : MergedData)
    (options : AnalysisOptions := {}) : AccountAnalysis :=
  let daysSinceLastContact := calculateDaysSinceLastContact now data.timeline
  let daysInStage := (options.stageStartDate.map (daysAgoMs now)).getD 0
  let engagementVelocity := calculateEngagementVelocity now data.timeline
  let momentumScore := calculateMomentumScore now data daysSinceLastContact
  let momentum := scoreMomentum momentumScore
  let risks := detectRisks now data daysSinceLastContact daysInStage
  let healthScore := calculateHealthScore momentumScore risks data.actionItems
  let insights := generateInsights now data momentum risks
  { momentum, momentumScore, engagementVelocity, daysInStage,
    daysSinceLastContact, risks, healthScore, insights }

/-- `applyAnalysisToAccount` (its `account.lastContactDate ?? new Date()`
fallback is the frozen `now`). -/
def applyAnalysisToAccount (now : Int) (account : MergedAccount)
    (analysis : AccountAnalysis) : Account :=
  { id := account.id.getD ""
    name := account.name.getD ""
    domain := account.domain.getD ""
    dealStage := account.dealStage.getD "unknown"
    dealValue := account.dealValue.getD 0
    closeDate := account.closeDate
    daysInStage := analysis.daysInStage
    lastContactDate := account.lastContactDate.getD now
    momentum := analysis.momentum
    contacts := account.contacts.getD []
    timeline := account.timeline.getD []
    openActionItems := account.openActionItems.getD []
    risks := analysis.risks }

/-! ### Participant profiler (src/intelligence/participantProfiler.ts) -/

structure PersonInfo where
  name : String
  email : Option String := none
  title : Option String := none
  company : Option String := none
  linkedInUrl : Option String := none
  background : Option String := none
deriving DecidableEq, Repr

/-- `ParticipantProfile`: `Participant` plus enrichment bookkeeping and a
rational `confidence`. -/
structure ParticipantProfile where
  email : String
  name : String
  company : String
  title : String
  role : Role
  influence : Influence
  linkedInUrl : Option String := none
  background : Option String := none
  previousInteractions : List Interaction := []
  communicationNotes : Option String := none
  whatTheyCareAbout : Option (List String) := none
  lastInteractionDate : Option Int := none
  totalInteractions : Option Nat := none
  enrichedFromExa : Bool := false
  confidence : Rat
deriving DecidableEq, Repr

/-- JS `\w` character class. -/
def wordChar (c : Char) : Bool := c.isAlphanum || c == '_'

/-- Whether word `w` occurs in `hay` starting at index `i` with `\b`
boundaries on both sides. -/
def hasWordAt (hay w : List Char) (i : Nat) : Bool :=
  isPrefixL w (hay.drop i) &&
  (i == 0 || !wordChar (hay.getD (i - 1) ' ')) &&
  (i + w.length ≥ hay.length || !wordChar (hay.getD (i + w.length) ' '))

/-- `/\b(w1|w2|…)\b/i.test s` on an already-lowercased `s` with lowercase
alternatives (`sr\.?` and `jr\.?` reduce to `sr` / `jr`: the optional dot
backtracks away whenever the trailing `\b` would fail). -/
def testWordAlts (alts : List String) (s : String) : Bool :=
  alts.any (fun w =>
    (List.range (s.data.length + 1)).any (fun i => hasWordAt s.data w.data i))

/-- `TITLE_ROLE_PATTERNS`, in source order. -/
def TITLE_ROLE_PATTERNS : List (List String × Role) :=
  [ (["ceo", "cto", "cfo", "coo", "ciso", "cio"], .economicBuyer)
  , (["vp", "vice president", "svp", "evp"], .economicBuyer)
  , (["director", "head of"], .decisionMaker)
  , (["engineer", "developer", "architect"], .technicalEvaluator)
  , (["security", "infosec", "cyber"], .technicalEvaluator)
  , (["procurement", "purchasing", "buyer"], .economicBuyer)
  , (["manager"], .influencer)
  , (["analyst", "specialist"], .influencer) ]

/-- `INFLUENCE_PATTERNS`, in source order. -/
def INFLUENCE_PATTERNS : List (List String × Influence) :=
  [ (["ceo", "cto", "cfo", "coo", "ciso", "cio"], .high)
  , (["vp", "vice president", "svp", "evp"], .high)
  , (["director", "head of"], .high)
  , (["senior", "sr", "principal", "staff"], .medium)
  , (["manager", "lead"], .medium)
  , (["junior", "jr", "associate", "intern"], .low) ]

/-- `ROLE_KEYWORDS`, in `Object.entries` (declaration) order. -/
def ROLE_KEYWORDS : List (Role × List String) :=
  [ (.champion,
      ["advocate", "sponsor", "supporter", "driving", "pushing", "excited", "enthusiastic"])
  , (.blocker,
      ["concern", "hesitant", "pushback", "skeptical", "opposed", "blocking", "resistant"])
  , (.economicBuyer,
      ["budget", "approve", "sign off", "authorize", "procurement", "purchase",
       "contract", "vp", "director", "head of", "chief"])
  , (.technicalEvaluator,
      ["evaluate", "test", "poc", "proof of concept", "technical", "engineer",
       "architect", "developer", "security", "infrastructure"])
  , (.decisionMaker,
      ["decide", "final say", "approval", "executive", "leader", "manager", "director"])
  , (.influencer,
      ["recommend", "suggest", "advise", "consult", "stakeholder", "input"])
  , (.unknown, []) ]

def joinSep (sep : String) : List String → String
  | [] => ""
  | [s] => s
  | s :: t => s ++ sep ++ joinSep sep t

def inferRole (participant : PartialParticipant) : Role :=
  let title := lowerStr (participant.title.getD "")
  let interactions := participant.previousInteractions.getD []
  match TITLE_ROLE_PATTERNS.find? (fun pr => testWordAlts pr.1 title) with
  | some pr => pr.2
  | none =>
      let allText := lowerStr (joinSep " "
        (interactions.map (fun i => i.title ++ " " ++ (i.summary.getD ""))))
      let best := ROLE_KEYWORDS.foldl
        (fun (best : Role × Nat) rk =>
          let score := (rk.2.filter (fun k => containsStr allText k)).length
          if score > best.2 then (rk.1, score) else best)
        (.unknown, 0)
      best.1

def inferInfluence (participant : PartialParticipant) : Influence :=
  let title := lowerStr (participant.title.getD "")
  let interactionCount := participant.totalInteractions.getD 0
  match INFLUENCE_PATTERNS.find? (fun pr => testWordAlts pr.1 title) with
  | some pr => pr.2
  | none =>
      if interactionCount ≥ 5 then .high
      else if interactionCount ≥ 2 then .medium
      else .low

/-- JS truthiness of an optional string field (`undefined` and `''` falsy). -/
def optStrTruthy (s : Option String) : Bool :=
  match s with
  | none => false
  | some v => v ≠ ""

def calculateConfidence (profile : ParticipantProfile) : Rat :=
  let step := fun (sf : Rat × Rat) (present : Bool) (weight : Rat) =>
    if present then (sf.1 + weight, sf.2 + 1) else sf
  let sf : Rat × Rat := (0, 0)
  let sf := step sf (profile.name ≠ "") 1
  let sf := step sf (profile.title ≠ "") 1
  let sf := step sf (profile.company ≠ "") 1
  let sf := step sf (optStrTruthy profile.linkedInUrl) 1
  let sf := step sf (optStrTruthy profile.background) 1
  let sf := step sf (profile.previousInteractions.length > 0) 1
  let sf := step sf (profile.role ≠ .unknown) (1 / 2)
  if sf.2 > 0 then sf.1 / sf.2 else 0

/-- `enrichParticipant` with the pipeline's `options = {}` (so role inference
runs when the role is `unknown` and influence inference always runs). -/
def enrichParticipant (participant : PartialParticipant)
    (personInfo : Option PersonInfo) : ParticipantProfile :=
  let profile : ParticipantProfile :=
    { email := participant.email.getD ""
      name := (participant.name.orElse (fun _ => personInfo.map (·.name))).getD ""
      company := (participant.company.orElse (fun _ => personInfo.bind (·.company))).getD ""
      title := (participant.title.orElse (fun _ => personInfo.bind (·.title))).getD ""
      role := participant.role.getD .unknown
      influence := participant.influence.getD .medium
      linkedInUrl := participant.linkedInUrl.orElse (fun _ => personInfo.bind (·.linkedInUrl))
      background := participant.background.orElse (fun _ => personInfo.bind (·.background))
      previousInteractions := participant.previousInteractions.getD []
      communicationNotes := participant.communicationNotes
      whatTheyCareAbout := participant.whatTheyCareAbout
      lastInteractionDate := participant.lastInteractionDate
      totalInteractions := participant.totalInteractions
      confidence := 1 / 2 }
  let profile :=
    if personInfo.isSome then { profile with enrichedFromExa := true, confidence := 7 / 10 }
    else profile
  -- TS passes the (structurally compatible) profile itself to `inferRole` /
  -- `inferInfluence`; `profileAsPartial` is that view.
  let profileAsPartial : PartialParticipant :=
    { email := some profile.email, name := some profile.name
      company := some profile.company, title := some profile.title
      role := some profile.role, influence := some profile.influence
      linkedInUrl := profile.linkedInUrl, background := profile.background
      previousInteractions := some profile.previousInteractions
      communicationNotes := profile.communicationNotes
      whatTheyCareAbout := profile.whatTheyCareAbout
      lastInteractionDate := profile.lastInteractionDate
      totalInteractions := profile.totalInteractions }
  let profile :=
    if profile.role = .unknown then { profile with role := inferRole profileAsPartial }
    else profile
  let profile := { profile with influence := inferInfluence profileAsPartial }
  { profile with confidence := calculateConfidence profile }

def profileParticipants (participants : List (String × PartialParticipant))
    (personInfoMap : Option (List (String × PersonInfo))) :
    List (String × ParticipantProfile) :=
  participants.foldl (fun profiles kp =>
    let personInfo := personInfoMap.bind (fun m => alGet m kp.1)
    alSet profiles kp.1 (enrichParticipant kp.2 personInfo)) []

def identifyMissingStakeholders (profiles : List (String × ParticipantProfile)) :
    List String :=
  let profileArray := profiles.map Prod.snd
  let hasRole := fun (role : Role) => profileArray.any (fun p => p.role == role)
  let requiredRoles : List (Role × String) :=
    [ (.economicBuyer, "Economic buyer not yet identified")
    , (.technicalEvaluator, "Technical evaluator not yet engaged")
    , (.champion, "No clear champion identified") ]
  (requiredRoles.filter (fun r => !hasRole r.1)).map Prod.snd

/-! ### Goal generator (src/intelligence/goalGenerator.ts) -/

structure Goal where
  id : String
  priority : Nat
  title : String
  rationale : String
  suggestedApproach : Option String := none
  relatedRisks : Option (List String) := none
  relatedActionItems : Option (List String) := none
deriving DecidableEq, Repr

/-- `Omit<Goal, 'id'>`: a goal before `generateGoals` assigns its id. -/
structure GoalDraft where
  priority : Nat
  title : String
  rationale : String
  suggestedApproach : Option String := none
  relatedRisks : Option (List String) := none
  relatedActionItems : Option (List String) := none
deriving DecidableEq, Repr

structure GoalContext where
  account : MergedAccount
  analysis : AccountAnalysis
  participants : List (String × ParticipantProfile)
  mergedData : MergedData
  meetingTitle : Option String := none
deriving DecidableEq, Repr

/-- The only template `condition` closure in the source is
`ctx => !hasEconomicBuyerEngaged(ctx)`; conditions are encoded as data. -/
inductive GoalCond | always | noEconomicBuyerEngaged
deriving DecidableEq, Repr

structure StageTemplateGoal where
  title : String
  rationale : String
  approach : Option String := none
  cond : GoalCond := .always
deriving DecidableEq, Repr

structure StageGoalTemplate where
  stages : List String
  goals : List StageTemplateGoal
deriving DecidableEq, Repr

def STAGE_GOAL_TEMPLATES : List StageGoalTemplate :=
  [ { stages := ["discovery", "qualification", "initial"]
      goals :=
        [ { title := "Confirm decision-making process and timeline"
            rationale := "Early-stage deals need clarity on how decisions are made"
            approach := some "Ask about evaluation criteria and who needs to sign off" }
        , { title := "Identify all key stakeholders"
            rationale := "Multi-threading early improves win rates"
            approach := some "Ask who else should be involved in the evaluation" }
        , { title := "Understand current solution and pain points"
            rationale := "Establishes baseline for value proposition"
            approach := some "Ask about current workflows and biggest challenges" } ] }
  , { stages := ["poc", "proof of concept", "pilot", "trial", "evaluation"]
      goals :=
        [ { title := "Confirm POC success criteria are on track"
            rationale := "Early identification of blockers prevents surprises"
            approach := some "Review each success criterion and current status" }
        , { title := "Address any technical blockers"
            rationale := "Technical issues in POC can derail entire deal"
            approach := some "Ask directly about any challenges or concerns" }
        , { title := "Schedule executive briefing before POC ends"
            rationale := "Economic buyers need to see value before procurement"
            approach := some "Request intro to leadership for a brief status update"
            cond := .noEconomicBuyerEngaged }
        , { title := "Verify procurement timeline"
            rationale := "Procurement often takes longer than expected"
            approach := some "Ask specific questions about approval process and timing" } ] }
  , { stages := ["negotiation", "proposal", "contract", "legal"]
      goals :=
        [ { title := "Resolve outstanding contract terms"
            rationale := "Legal back-and-forth can delay close significantly"
            approach := some "Identify remaining open items and decision makers" }
        , { title := "Confirm budget approval status"
            rationale := "Budget surprises at this stage are deal killers"
            approach := some "Directly confirm budget has been allocated" }
        , { title := "Lock in implementation timeline"
            rationale := "Urgency creates momentum toward close"
            approach := some "Propose specific dates for kickoff" } ] }
  , { stages := ["closed", "won", "customer", "implementation"]
      goals :=
        [ { title := "Confirm implementation milestones"
            rationale := "Successful implementation drives expansion"
            approach := some "Review timeline and identify any risks" }
        , { title := "Identify expansion opportunities"
            rationale := "Happy customers are best source of growth"
            approach := some "Ask about other teams or use cases" } ] } ]

def hasEconomicBuyerEngaged (context : GoalContext) : Bool :=
  (context.participants.map Prod.snd).any (fun p => p.role == .economicBuyer)

def evalGoalCond (context : GoalContext) : GoalCond → Bool
  | .always => true
  | .noEconomicBuyerEngaged => !hasEconomicBuyerEngaged context

def generateStageGoals (context : GoalContext) : List GoalDraft :=
  let dealStage := (context.account.dealStage.map lowerStr).getD "unknown"
  match STAGE_GOAL_TEMPLATES.find? (fun t =>
      t.stages.any (fun s => containsStr dealStage s)) with
  | none =>
      [ { priority := 2
          title := "Understand current status and next steps"
          rationale := "Maintain momentum and clarity on path forward" } ]
  | some template =>
      template.goals.filterMap (fun g =>
        if !evalGoalCond context g.cond then none
        else some { priority := 2, title := g.title, rationale := g.rationale
                    suggestedApproach := g.approach })

def generateRiskGoals (context : GoalContext) : List GoalDraft :=
  context.analysis.risks.flatMap (fun risk =>
    (if risk.severity == .high then
      [ { priority := 1
          title := "Address: " ++ risk.description
          rationale := "High-severity risk that needs immediate attention"
          suggestedApproach := risk.mitigationSuggestion
          relatedRisks := some [risk.id] } ]
     else []) ++
    (if risk.severity == .medium then
      [ { priority := 3
          title := "Discuss: " ++ risk.description
          rationale := "Medium risk worth addressing proactively"
          suggestedApproach := risk.mitigationSuggestion
          relatedRisks := some [risk.id] } ]
     else []))

def generateActionItemGoals (context : GoalContext) : List GoalDraft :=
  let openItems := context.mergedData.actionItems.filter
    (fun i => i.status == .pending || i.status == .overdue)
  let theirItems := openItems.filter (fun i => i.owner == .theirs)
  let ourItems := openItems.filter (fun i => i.owner == .ours)
  let overdueTheirs := theirItems.filter (fun i => i.status == .overdue)
  let goals : List GoalDraft := []
  let goals :=
    if overdueTheirs.length > 0 then
      let n := overdueTheirs.length
      let itemDescriptions := joinSep "; " ((overdueTheirs.take 3).map (·.description))
      goals ++
        [ { priority := 1
            title := "Follow up on overdue customer action items"
            rationale := s!"{n} items are past due: " ++ itemDescriptions
            suggestedApproach := some "Ask for status update and offer assistance if blocked"
            relatedActionItems := some (overdueTheirs.map (·.id)) } ]
    else goals
  let pendingTheirs := theirItems.filter (fun i => i.status == .pending)
  let goals :=
    if pendingTheirs.length > 0 ∧ overdueTheirs.length = 0 then
      let n := pendingTheirs.length
      goals ++
        [ { priority := 3
            title := "Check status on pending customer items"
            rationale := s!"{n} items pending on customer side"
            relatedActionItems := some (pendingTheirs.map (·.id)) } ]
    else goals
  let goals :=
    if (ourItems.filter (fun i => i.status == .overdue)).length > 0 then
      goals ++
        [ { priority := 2
            title := "Deliver on our overdue commitments"
            rationale := "We have overdue items - address these to maintain credibility"
            suggestedApproach := some "Either complete before the call or set new expectations" } ]
    else goals
  goals

def generateStakeholderGoals (context : GoalContext) : List GoalDraft :=
  let profiles := context.participants.map Prod.snd
  let hasEconomicBuyer := profiles.any (fun p => p.role == .economicBuyer)
  let goals : List GoalDraft := []
  let goals :=
    if !hasEconomicBuyer && profiles.length ≥ 3 then
      goals ++
        [ { priority := 2
            title := "Get introduction to economic buyer"
            rationale := "No budget holder engaged yet - critical for deal progression"
            suggestedApproach := some "Ask champion for intro to person who approves budget" } ]
    else goals
  let blockers := profiles.filter (fun p => p.role == .blocker)
  let goals :=
    if blockers.length > 0 then
      let n := blockers.length
      goals ++
        [ { priority := 2
            title := "Address concerns of skeptical stakeholders"
            rationale := s!"{n} potential blocker(s) identified"
            suggestedApproach := some "Proactively ask about and address their concerns" } ]
    else goals
  let goals :=
    if (profiles.find? (fun p => p.role == .champion)).isSome then
      goals ++
        [ { priority := 4
            title := "Equip champion with internal selling points"
            rationale := "Champions need ammunition to advocate internally"
            suggestedApproach := some "Share ROI data, case studies, or talking points" } ]
    else goals
  goals

def draftToGoal (id : String) (d : GoalDraft) : Goal :=
  { id, priority := d.priority, title := d.title, rationale := d.rationale
    suggestedApproach := d.suggestedApproach, relatedRisks := d.relatedRisks
    relatedActionItems := d.relatedActionItems }

/-- The dedup key: `goal.title.toLowerCase().slice(0, 30)`. -/
def goalKey (goal : Goal) : String := takeStr (lowerStr goal.title) 30

/-- One step of `deduplicateGoals`' seen-set fold. -/
def dedupGoalsStep (acc : List String × List Goal) (goal : Goal) :
    List String × List Goal :=
  let key := goalKey goal
  if key ∈ acc.1 then acc else (acc.1 ++ [key], acc.2 ++ [goal])

def deduplicateGoals (goals : List Goal) : List Goal :=
  (goals.foldl dedupGoalsStep ([], [])).2

def generateGoals (context : GoalContext) : List Goal :=
  let drafts := generateStageGoals context ++ generateRiskGoals context ++
    generateActionItemGoals context ++ generateStakeholderGoals context
  let goals := drafts.mapIdx (fun i d => draftToGoal ("goal-" ++ toString (i + 1)) d)
  let deduped := deduplicateGoals goals
  let sorted := stableSortBy (fun a b : Goal => decide (a.priority ≤ b.priority)) deduped
  sorted.take 5

/-! ### Talking-point generator (src/intelligence/talkingPointGenerator.ts) -/

inductive TPCategory
  | opener | goalSupport | riskMitigation | stakeholderSpecific | actionFollowUp
  | valueProposition | nextSteps
deriving DecidableEq, Repr

structure TalkingPoint where
  id : String
  category : TPCategory
  point : String
  context : Option String := none
  suggestedPhrasing : Option String := none
  relatedGoalId : Option String := none
  relatedParticipant : Option String := none
  priority : Nat
deriving DecidableEq, Repr

/-- `Omit<TalkingPoint, 'id'>`. -/
structure TPDraft where
  category : TPCategory
  point : String
  context : Option String := none
  suggestedPhrasing : Option String := none
  relatedGoalId : Option String := none
  relatedParticipant : Option String := none
  priority : Nat
deriving DecidableEq, Repr

structure TalkingPointContext where
  account : MergedAccount
  analysis : AccountAnalysis
  participants : List (String × ParticipantProfile)
  mergedData : MergedData
  goals : List Goal
  meetingTitle : Option String := none
deriving DecidableEq, Repr

def formatDaysAgo (days : Int) : String :=
  if days = 0 then "today"
  else if days = 1 then "yesterday"
  else if days < 7 then s!"{days} days ago"
  else if days < 14 then "last week"
  else if days < 30 then
    let w := Int.fdiv days 7
    s!"{w} weeks ago"
  else
    let m := Int.fdiv days 30
    s!"{m} months ago"

def getRiskPhrasing (riskId : String) : Option String :=
  if riskId = "risk-single-thread" then
    some "\"Who else on your team should we be engaging with?\""
  else if riskId = "risk-no-champion" then
    some "\"Is there someone on your side who's been driving this internally?\""
  else if riskId = "risk-stalled-momentum" then
    some "\"I want to make sure we're moving at the right pace for your timeline...\""
  else if riskId = "risk-overdue-actions" then
    some "\"I noticed we have some open items - what can we do to help move those forward?\""
  else none

/-- The opener that references the latest timeline event. -/
def referenceLastInteractionPoint (lastEvent : TimelineEvent) (dsc : Int) : TPDraft :=
  { category := .opener
    point := "Reference last interaction: " ++ lastEvent.title
    context := some s!"Last touchpoint was {dsc} days ago"
    suggestedPhrasing := some
      ("\"Great to reconnect - I wanted to follow up on our " ++
        (if lastEvent.type == .call then "conversation" else "meeting") ++
        " from " ++ formatDaysAgo dsc ++ "...\"")
    priority := 1 }

/-- `generateOpeners` written as the concatenation of its three sequential
conditional pushes. -/
def generateOpeners (context : TalkingPointContext) : List TPDraft :=
  let analysis := context.analysis
  let referencePart : List TPDraft :=
    if analysis.daysSinceLastContact < 14 ∧ context.mergedData.timeline.length > 0 then
      match context.mergedData.timeline.getLast? with
      | some lastEvent => [referenceLastInteractionPoint lastEvent analysis.daysSinceLastContact]
      | none => []
    else []
  let momentumPart : List TPDraft :=
    if analysis.momentum == .accelerating then
      [ { category := .opener
          point := "Acknowledge positive momentum"
          context := some "Account shows accelerating engagement"
          suggestedPhrasing := some "\"The team has been making great progress together...\""
          priority := 2 } ]
    else if analysis.momentum == .stalling || analysis.momentum == .atRisk then
      let mt := momentumText analysis.momentum
      [ { category := .opener
          point := "Re-establish engagement"
          context := some s!"Account momentum is {mt}"
          suggestedPhrasing := some
            "\"I wanted to reconnect and make sure we're aligned on priorities...\""
          priority := 1 } ]
    else []
  let stage := (context.account.dealStage.map lowerStr).getD ""
  let stagePart : List TPDraft :=
    if containsStr stage "poc" || containsStr stage "pilot" then
      [ { category := .opener
          point := "POC progress check"
          suggestedPhrasing := some
            "\"I'm eager to hear how the evaluation is going from your perspective...\""
          priority := 2 } ]
    else []
  referencePart ++ momentumPart ++ stagePart

def generateGoalSupportPoints (context : TalkingPointContext) : List TPDraft :=
  (context.goals.take 3).flatMap (fun goal =>
    (if goal.priority = 1 then
      [ { category := .goalSupport
          point := goal.title
          context := some goal.rationale
          suggestedPhrasing := goal.suggestedApproach.map (fun a => "Approach: " ++ a)
          relatedGoalId := some goal.id
          priority := 1 } ]
     else []) ++
    (match goal.suggestedApproach with
     | some approach =>
        [ { category := .goalSupport
            point := "Support: " ++ goal.title
            context := some approach
            relatedGoalId := some goal.id
            priority := if goal.priority ≤ 2 then 2 else 3 } ]
     | none => []))

def generateRiskMitigationPoints (context : TalkingPointContext) : List TPDraft :=
  context.analysis.risks.flatMap (fun risk =>
    if risk.severity == .high then
      [ { category := .riskMitigation
          point := "Address risk: " ++ risk.description
          context := risk.mitigationSuggestion
          suggestedPhrasing := getRiskPhrasing risk.id
          priority := 1 } ]
    else if risk.severity == .medium then
      [ { category := .riskMitigation
          point := "Probe: " ++ risk.description
          context := risk.mitigationSuggestion
          priority := 2 } ]
    else [])

/-- `profile.name || profile.email` (JS `||`: empty string is falsy). -/
def nameOrEmail (profile : ParticipantProfile) : String :=
  if profile.name = "" then profile.email else profile.name

def generateStakeholderPoints (context : TalkingPointContext) : List TPDraft :=
  (context.participants.map Prod.snd).flatMap (fun profile =>
    (if profile.role == .champion then
      [ { category := .stakeholderSpecific
          point := "Strengthen champion relationship with " ++ nameOrEmail profile
          context := some "Champions need to feel supported and equipped"
          suggestedPhrasing := some
            "\"What would be most helpful for your internal discussions?\""
          relatedParticipant := some profile.email
          priority := 2 } ]
     else []) ++
    (if profile.role == .blocker then
      [ { category := .stakeholderSpecific
          point := "Address " ++ nameOrEmail profile ++ "'s concerns directly"
          context := some "Potential blocker identified - proactively engage"
          suggestedPhrasing := some
            "\"I want to make sure we address any concerns you might have...\""
          relatedParticipant := some profile.email
          priority := 1 } ]
     else []) ++
    (if profile.role == .economicBuyer then
      [ { category := .stakeholderSpecific
          point := "Emphasize ROI and business impact for " ++ nameOrEmail profile
          context := some "Economic buyer focuses on value and risk"
          suggestedPhrasing := some
            "\"From a business perspective, here's the impact we're seeing...\""
          relatedParticipant := some profile.email
          priority := 1 } ]
     else []) ++
    (if profile.role == .technicalEvaluator then
      [ { category := .stakeholderSpecific
          point := "Provide technical depth for " ++ nameOrEmail profile
          context := some "Technical evaluators need specifics"
          suggestedPhrasing := some
            "\"Happy to dive deeper into the architecture if helpful...\""
          relatedParticipant := some profile.email
          priority := 2 } ]
     else []) ++
    (match profile.whatTheyCareAbout with
     | some cares =>
        if cares.length > 0 then
          let concerns := joinSep " and " (cares.take 2)
          let who := if profile.name = "" then "participant" else profile.name
          [ { category := .stakeholderSpecific
              point := "Address " ++ who ++ "'s priorities: " ++ concerns
              relatedParticipant := some profile.email
              priority := 2 } ]
        else []
     | none => []))

/-- The follow-up point for the first overdue customer-owned item. -/
def overdueTheirsPoint (item : ActionItem) : TPDraft :=
  let overdueText := match item.daysOverdue with
    | some d => toString d
    | none => "several"
  { category := .actionFollowUp
    point := "Follow up on: " ++ item.description
    context := some ("This item is overdue by " ++ overdueText ++ " days")
    suggestedPhrasing := some
      "\"I wanted to check in on [item] - is there anything blocking progress that we can help with?\""
    priority := 1 }

/-- The acknowledgement point for the first overdue item on our side. -/
def overdueOursPoint (item : ActionItem) : TPDraft :=
  { category := .actionFollowUp
    point := "Acknowledge our overdue item: " ++ item.description
    context := some "Maintain credibility by addressing our delays"
    suggestedPhrasing := some
      "\"I want to acknowledge we're behind on [item] - here's our updated plan...\""
    priority := 1 }

/-- The count-only point for pending customer items. -/
def pendingTheirsPoint (n : Nat) : TPDraft :=
  { category := .actionFollowUp
    point := s!"Check status on {n} pending item(s)"
    context := some "Keep track of customer commitments"
    priority := 3 }

/-- `generateActionFollowUpPoints` written as the concatenation of its three
sequential conditional pushes. -/
def generateActionFollowUpPoints (context : TalkingPointContext) : List TPDraft :=
  let openItems := context.mergedData.actionItems.filter
    (fun i => i.status == .pending || i.status == .overdue)
  let overdueTheirs := openItems.filter
    (fun i => i.owner == .theirs && i.status == .overdue)
  let theirsPart : List TPDraft :=
    match overdueTheirs.head? with
    | some item => [overdueTheirsPoint item]
    | none => []
  let overdueOurs := openItems.filter
    (fun i => i.owner == .ours && i.status == .overdue)
  let oursPart : List TPDraft :=
    match overdueOurs.head? with
    | some item => [overdueOursPoint item]
    | none => []
  let pendingTheirs := openItems.filter
    (fun i => i.owner == .theirs && i.status == .pending)
  let pendingPart : List TPDraft :=
    if pendingTheirs.length > 0 ∧ overdueTheirs.length = 0 then
      [pendingTheirsPoint pendingTheirs.length]
    else []
  theirsPart ++ oursPart ++ pendingPart

def generateValuePoints (context : TalkingPointContext) : List TPDraft :=
  let stage := (context.account.dealStage.map lowerStr).getD ""
  let points : List TPDraft := []
  let points :=
    if containsStr stage "poc" || containsStr stage "pilot" || containsStr stage "trial" then
      points ++
        [ { category := .valueProposition
            point := "Reinforce value demonstrated in evaluation"
            context := some "Connect POC results to business outcomes"
            suggestedPhrasing := some
              "\"Based on what we've seen so far, the impact on [metric] has been...\""
            priority := 2 } ]
    else points
  let points :=
    if context.analysis.momentum == .atRisk || context.analysis.momentum == .stalling then
      points ++
        [ { category := .valueProposition
            point := "Re-emphasize core value proposition"
            context := some "Account needs re-engagement on value"
            suggestedPhrasing := some
              "\"I want to make sure we're still aligned on the key problems we're solving...\""
            priority := 1 } ]
    else points
  let points :=
    if containsStr stage "negotiation" || containsStr stage "proposal" ||
        containsStr stage "contract" then
      points ++
        [ { category := .valueProposition
            point := "Quantify ROI for final decision"
            context := some "Economic justification for procurement"
            suggestedPhrasing := some
              "\"Here's how we're calculating the return on this investment...\""
            priority := 2 } ]
    else points
  points

def generateNextStepsPoints (context : TalkingPointContext) : List TPDraft :=
  let stage := (context.account.dealStage.map lowerStr).getD ""
  let profiles := context.participants.map Prod.snd
  let points : List TPDraft :=
    [ { category := .nextSteps
        point := "Propose specific next step with timeline"
        context := some "Never leave a meeting without a clear next action"
        suggestedPhrasing := some
          "\"For next steps, I'd suggest we [action] by [date]. Does that work?\""
        priority := 2 } ]
  let points :=
    if containsStr stage "discovery" || containsStr stage "qualification" then
      points ++
        [ { category := .nextSteps
            point := "Propose technical deep-dive or demo"
            suggestedPhrasing := some
              "\"Would it be helpful to schedule a technical session with your team?\""
            priority := 2 } ]
    else points
  let points :=
    if containsStr stage "poc" || containsStr stage "pilot" then
      let hasEconomicBuyer := profiles.any (fun p => p.role == .economicBuyer)
      if !hasEconomicBuyer then
        points ++
          [ { category := .nextSteps
              point := "Request executive briefing"
              context := some "No economic buyer engaged yet"
              suggestedPhrasing := some
                "\"Would it make sense to schedule a brief update with [executive] before we conclude the evaluation?\""
              priority := 1 } ]
      else points
    else points
  let points :=
    if containsStr stage "negotiation" || containsStr stage "contract" then
      points ++
        [ { category := .nextSteps
            point := "Propose implementation kickoff date"
            context := some "Create urgency toward close"
            suggestedPhrasing := some
              "\"If we can finalize by [date], we could kick off implementation on [date].\""
            priority := 1 } ]
    else points
  let points :=
    if context.analysis.daysSinceLastContact > 14 then
      let dsc := context.analysis.daysSinceLastContact
      points ++
        [ { category := .nextSteps
            point := "Establish regular touchpoint cadence"
            context := some s!"{dsc} days since last contact"
            suggestedPhrasing := some
              "\"To keep momentum, should we set up a regular check-in cadence?\""
            priority := 2 } ]
    else points
  points

def draftToTalkingPoint (id : String) (d : TPDraft) : TalkingPoint :=
  { id, category := d.category, point := d.point, context := d.context
    suggestedPhrasing := d.suggestedPhrasing, relatedGoalId := d.relatedGoalId
    relatedParticipant := d.relatedParticipant, priority := d.priority }

def generateTalkingPoints (context : TalkingPointContext) : List TalkingPoint :=
  let drafts :=
    generateOpeners context ++ generateGoalSupportPoints context ++
    generateRiskMitigationPoints context ++ generateStakeholderPoints context ++
    generateActionFollowUpPoints context ++ generateValuePoints context ++
    generateNextStepsPoints context
  let points := drafts.mapIdx (fun i d => draftToTalkingPoint ("tp-" ++ toString (i + 1)) d)
  stableSortBy (fun a b : TalkingPoint => decide (a.priority ≤ b.priority)) points

def getTalkingPointsByCategory (points : List TalkingPoint) (category : TPCategory) :
    List TalkingPoint :=
  points.filter (fun p => p.category == category)

/-! ### Competitive intelligence (src/intelligence/competitiveIntel.ts) -/

inductive Sentiment | positive | negative | neutral
deriving DecidableEq, Repr

inductive MentionSource | transcript | slack | calendar | research
deriving DecidableEq, Repr

structure CompetitorMention where
  id : String
  competitor : String
  context : String
  sentiment : Sentiment
  source : MentionSource
  sourceId : Option String := none
  date : Option Int := none
  speaker : Option String := none
deriving DecidableEq, Repr

/-- `sentimentSummary` of a `CompetitorProfile`. -/
structure SentimentSummary where
  positive : Nat
  negative : Nat
  neutral : Nat
deriving DecidableEq, Repr

structure CompetitorProfile where
  name : String
  normalizedName : String
  mentionCount : Nat
  lastMentioned : Option Int := none
  sentimentSummary : SentimentSummary
  keyThemes : List String
deriving DecidableEq, Repr

structure CompetitiveRisk where
  id : String
  competitor : String
  risk : String
  severity : Severity
  evidence : String
  mitigationSuggestion : Option String := none
deriving DecidableEq, Repr

structure CompetitiveIntel where
  competitors : List CompetitorProfile
  mentions : List CompetitorMention
  competitiveLandscape : String
  keyDifferentiators : List String
  risks : List CompetitiveRisk
deriving DecidableEq, Repr

structure CompetitiveIntelContext where
  mergedData : MergedData
  accountName : String
  accountDomain : String
deriving DecidableEq, Repr

/-- `KNOWN_COMPETITORS`, in `Object.entries` (declaration) order. -/
def KNOWN_COMPETITORS : List (String × List String) :=
  [ ("Salesforce", ["salesforce", "sfdc", "sales cloud", "service cloud"])
  , ("Microsoft", ["microsoft", "msft", "dynamics", "azure", "teams"])
  , ("Google", ["google", "gcp", "google cloud", "workspace"])
  , ("AWS", ["aws", "amazon web services", "amazon"])
  , ("Snowflake", ["snowflake"])
  , ("Databricks", ["databricks"])
  , ("HubSpot", ["hubspot"])
  , ("Zendesk", ["zendesk"])
  , ("ServiceNow", ["servicenow", "service now"])
  , ("Workday", ["workday"])
  , ("SAP", ["sap", "s/4hana"])
  , ("Oracle", ["oracle", "oci"])
  , ("Slack", ["slack"])
  , ("Zoom", ["zoom"])
  , ("Datadog", ["datadog"])
  , ("Splunk", ["splunk"])
  , ("MongoDB", ["mongodb", "mongo"])
  , ("Elastic", ["elastic", "elasticsearch"])
  , ("Confluent", ["confluent", "kafka"])
  , ("HashiCorp", ["hashicorp", "terraform", "vault"]) ]

def COMPETITIVE_SIGNALS : List String :=
  [ "competitor", "alternative", "also looking at", "evaluating", "compared to"
  , "vs", "versus", "instead of", "switch from", "migrate from", "replace"
  , "benchmark", "competitive", "other vendors", "other options" ]

def POSITIVE_FOR_COMPETITOR : List String :=
  [ "prefer", "like", "better", "love", "great experience", "already using"
  , "happy with", "satisfied" ]

def NEGATIVE_FOR_COMPETITOR : List String :=
  [ "issue", "problem", "challenge", "frustrated", "expensive", "difficult"
  , "complex", "migrate from", "switch from", "moving away", "replacing"
  , "limitations" ]

def analyzeCompetitorSentiment (text competitorAls : String) : Sentiment :=
  let lowerText := lowerStr text
  match idxOfStr lowerText (lowerStr competitorAls) with
  | none => .neutral
  | some aliasIndex =>
      let contextStart := aliasIndex - 100
      let contextEnd := min (lenStr text) (aliasIndex + lenStr competitorAls + 100)
      let ctx := sliceStr lowerText contextStart contextEnd
      let hasPositive := POSITIVE_FOR_COMPETITOR.any (fun s => containsStr ctx s)
      let hasNegative := NEGATIVE_FOR_COMPETITOR.any (fun s => containsStr ctx s)
      if hasPositive && !hasNegative then .positive
      else if hasNegative && !hasPositive then .negative
      else .neutral

/-- JS `s.slice(0, e)` with a possibly negative `e`. -/
def jsSliceToEnd (s : String) (e : Int) : String :=
  if e < 0 then takeStr s ((lenStr s : Int) + e).toNat else takeStr s e.toNat

def extractMentionContext (text als : String) : String :=
  let lowerText := lowerStr text
  match idxOfStr lowerText (lowerStr als) with
  | none => ""
  | some aliasIndex =>
      let contextStart := aliasIndex - 75
      let contextEnd := min (lenStr text) (aliasIndex + lenStr als + 75)
      let ctx := sliceStr text contextStart contextEnd
      let ctx :=
        if contextStart > 0 then
          match idxOfChar ctx ' ' with
          | some firstSpace =>
              if firstSpace > 0 ∧ firstSpace < 20 then
                "..." ++ (⟨ctx.data.drop (firstSpace + 1)⟩ : String)
              else ctx
          | none => ctx
        else ctx
      if contextEnd < lenStr text then
        let lastSpace : Int := match lastIdxOfChar ctx ' ' with
          | some i => (i : Int)
          | none => -1
        if lastSpace > (lenStr ctx : Int) - 20 then jsSliceToEnd ctx lastSpace ++ "..."
        else ctx
      else ctx

def extractGenericCompetitiveContext (text : String) : String :=
  let hit := COMPETITIVE_SIGNALS.findSome? (fun signal =>
    (idxOfStr (lowerStr text) (lowerStr signal)).map (fun i => (signal, i)))
  match hit with
  | some (signal, index) =>
      sliceStr text (index - 50) (min (lenStr text) (index + lenStr signal + 100))
  | none => ""

def eventMentionSource : EventType → MentionSource
  | .call => .transcript
  | .meeting => .calendar
  | _ => .slack

/-- Builds one mention per matched `(competitor, alias)` pair, numbering the
ids `cm-<idNum>`, `cm-<idNum+1>`, … as the source's `id++` loop does. -/
def numberedMentions (event : TimelineEvent) (searchText : String) :
    Nat → List (String × String) → List CompetitorMention
  | _, [] => []
  | idNum, ca :: rest =>
      { id := "cm-" ++ toString idNum
        competitor := ca.1
        context := extractMentionContext searchText ca.2
        sentiment := analyzeCompetitorSentiment searchText ca.2
        source := eventMentionSource event.type
        sourceId := some event.id
        date := some event.date } :: numberedMentions event searchText (idNum + 1) rest

def extractMentionsFromEvent (event : TimelineEvent) (startId : Nat) :
    List CompetitorMention :=
  let searchText := lowerStr (event.title ++ " " ++ (event.description.getD ""))
  -- For each dictionary entry, the first alias that occurs (the inner `break`
  -- exits the alias loop only, so each matched competitor contributes one
  -- mention).
  let matched := KNOWN_COMPETITORS.filterMap (fun ca =>
    (ca.2.find? (fun als => containsStr searchText (lowerStr als))).map
      (fun als => (ca.1, als)))
  let mentions := numberedMentions event searchText startId matched
  let hasCompetitiveSignal := COMPETITIVE_SIGNALS.any (fun signal =>
    containsStr searchText (lowerStr signal))
  if hasCompetitiveSignal ∧ mentions.length = 0 then
    [ { id := "cm-" ++ toString startId
        competitor := "Unknown Competitor"
        context := extractGenericCompetitiveContext searchText
        sentiment := .neutral
        source := eventMentionSource event.type
        sourceId := some event.id
        date := some event.date } ]
  else mentions

def bumpSentiment (s : SentimentSummary) : Sentiment → SentimentSummary
  | .positive => { s with positive := s.positive + 1 }
  | .negative => { s with negative := s.negative + 1 }
  | .neutral => { s with neutral := s.neutral + 1 }

def buildCompetitorProfiles (mentions : List CompetitorMention) :
    List CompetitorProfile :=
  let profileMap := mentions.foldl (fun (m : List (String × CompetitorProfile)) mention =>
    let normalizedName := lowerStr mention.competitor
    match alGet m normalizedName with
    | some existing =>
        let existing := { existing with
          mentionCount := existing.mentionCount + 1
          sentimentSummary := bumpSentiment existing.sentimentSummary mention.sentiment }
        let existing := match mention.date with
          | some d =>
              if existing.lastMentioned.all (fun last => d > last) then
                { existing with lastMentioned := some d }
              else existing
          | none => existing
        let theme := takeStr mention.context 50
        let existing :=
          if mention.context != "" && !(existing.keyThemes.contains theme) then
            { existing with keyThemes := existing.keyThemes ++ [theme] }
          else existing
        alSet m normalizedName existing
    | none =>
        alSet m normalizedName
          { name := mention.competitor
            normalizedName
            mentionCount := 1
            lastMentioned := mention.date
            sentimentSummary :=
              { positive := if mention.sentiment == .positive then 1 else 0
                negative := if mention.sentiment == .negative then 1 else 0
                neutral := if mention.sentiment == .neutral then 1 else 0 }
            keyThemes := if mention.context ≠ "" then [takeStr mention.context 50] else [] })
    []
  stableSortBy (fun a b : CompetitorProfile => decide (b.mentionCount ≤ a.mentionCount))
    (profileMap.map Prod.snd)

def USING_SIGNALS : List String := ["using", "currently on", "have", "running"]

/-- The risk rules for one competitor profile; threads the risk-id counter. -/
def risksForProfile (now : Int) (mentions : List CompetitorMention)
    (acc : List CompetitiveRisk × Nat) (profile : CompetitorProfile) :
    List CompetitiveRisk × Nat :=
  if profile.normalizedName = "unknown competitor" then acc
  else
    let (risks, riskId) := acc
    let posCount := profile.sentimentSummary.positive
    let total := profile.mentionCount
    -- `positiveRatio > 0.5` with `positiveRatio = posCount / total`.
    let (risks, riskId) :=
      if 2 * posCount > total ∧ total ≥ 2 then
        (risks ++
          [ { id := "cr-" ++ toString riskId
              competitor := profile.name
              risk := "Customer has positive sentiment toward " ++ profile.name
              severity := .high
              evidence := s!"{posCount} positive mentions out of {total} total"
              mitigationSuggestion := some
                ("Understand what they value about " ++ profile.name ++ " and address directly") } ],
          riskId + 1)
      else (risks, riskId)
    let recentMentions := mentions.filter (fun m =>
      m.competitor == profile.name &&
      match m.date with
      | some d => decide (now - d < 30 * msPerDay)
      | none => false)
    let (risks, riskId) :=
      if recentMentions.length ≥ 3 then
        let n := recentMentions.length
        (risks ++
          [ { id := "cr-" ++ toString riskId
              competitor := profile.name
              risk := "Frequent recent mentions of " ++ profile.name
              severity := .medium
              evidence := s!"{n} mentions in the last 30 days"
              mitigationSuggestion := some "Proactively address competitive comparison" } ],
          riskId + 1)
      else (risks, riskId)
    let isCurrentlyUsing := mentions.any (fun m =>
      m.competitor == profile.name &&
      USING_SIGNALS.any (fun signal => containsStr (lowerStr m.context) signal))
    if isCurrentlyUsing then
      (risks ++
        [ { id := "cr-" ++ toString riskId
            competitor := profile.name
            risk := "Customer may be currently using " ++ profile.name
            severity := .high
            evidence := "Detected usage indicators in conversations"
            mitigationSuggestion := some
              ("Understand their current experience and pain points with " ++ profile.name) } ],
        riskId + 1)
    else (risks, riskId)

def severityOrder : Severity → Nat
  | .high => 0
  | .medium => 1
  | .low => 2

def identifyCompetitiveRisks (now : Int) (profiles : List CompetitorProfile)
    (mentions : List CompetitorMention) : List CompetitiveRisk :=
  let risks := (profiles.foldl (risksForProfile now mentions) ([], 1)).1
  stableSortBy
    (fun a b : CompetitiveRisk => decide (severityOrder a.severity ≤ severityOrder b.severity))
    risks

def getPrimarySentiment (summary : SentimentSummary) : String :=
  let m := max summary.positive (max summary.negative summary.neutral)
  if m = summary.positive then "positive (risk)"
  else if m = summary.negative then "negative (opportunity)"
  else "neutral"

def generateLandscapeSummary (profiles : List CompetitorProfile)
    (accountName : String) : String :=
  match profiles with
  | [] => "No competitive mentions detected in " ++ accountName ++ " conversations."
  | _ =>
      let topCompetitors := profiles.take 3
      let competitorNames := joinSep ", " (topCompetitors.map (·.name))
      if topCompetitors.length = 1 then
        match topCompetitors.head? with
        | none => ""
        | some comp =>
            let n := comp.mentionCount
            let sentiment := getPrimarySentiment comp.sentimentSummary
            comp.name ++ s!" has been mentioned {n} time(s). Overall sentiment: " ++
              sentiment ++ "."
      else
        let leaderName := (topCompetitors.head?.map (·.name)).getD ""
        let leaderCount := (topCompetitors.head?.map (·.mentionCount)).getD 0
        "Competitive landscape includes " ++ competitorNames ++ ". " ++ leaderName ++
          s!" is most frequently mentioned ({leaderCount} times)."

def extractDifferentiators (mentions : List CompetitorMention) : List String :=
  let negativeMentions := mentions.filter (fun m => m.sentiment == .negative)
  let differentiators := negativeMentions.flatMap (fun mention =>
    (if containsStr mention.context "expensive" || containsStr mention.context "cost" then
      ["Pricing/value advantage"] else []) ++
    (if containsStr mention.context "complex" || containsStr mention.context "difficult" then
      ["Ease of use/simplicity"] else []) ++
    (if containsStr mention.context "support" || containsStr mention.context "help" then
      ["Superior support"] else []) ++
    (if containsStr mention.context "integration" || containsStr mention.context "connect" then
      ["Better integrations"] else []))
  -- `[...new Set(differentiators)]`: dedupe preserving first occurrence.
  (differentiators.foldl (fun (acc : List String) d =>
    if d ∈ acc then acc else acc ++ [d]) [])

def extractCompetitiveIntel (now : Int) (context : CompetitiveIntelContext) :
    CompetitiveIntel :=
  let mentions := (context.mergedData.timeline.foldl
    (fun (acc : List CompetitorMention × Nat) event =>
      let eventMentions := extractMentionsFromEvent event acc.2
      (acc.1 ++ eventMentions, acc.2 + eventMentions.length))
    ([], 1)).1
  let profiles := buildCompetitorProfiles mentions
  let risks := identifyCompetitiveRisks now profiles mentions
  let landscape := generateLandscapeSummary profiles context.accountName
  let differentiators := extractDifferentiators mentions
  { competitors := profiles
    mentions := mentions
    competitiveLandscape := landscape
    keyDifferentiators := differentiators
    risks := risks }

/-! ### Dossier assembler (src/intelligence/dossierAssembler.ts) -/

structure Attendee where
  email : String
  name : Option String := none
  responseStatus : Option String := none
  isOrganizer : Option Bool := none
  isExternal : Option Bool := none
deriving DecidableEq, Repr

structure Meeting where
  id : String
  title : String
  datetime : Int
  duration : Int
  attendees : List Attendee
  meetingLink : Option String := none
  accountId : Option String := none
  description : Option String := none
  location : Option String := none
deriving DecidableEq, Repr

/-- The external-participant view (`Participant` of src/types). -/
structure Participant where
  email : String
  name : String
  company : String
  title : String
  role : Role
  influence : Influence
  linkedInUrl : Option String := none
  background : Option String := none
  previousInteractions : List Interaction := []
  communicationNotes : Option String := none
  whatTheyCareAbout : Option (List String) := none
  lastInteractionDate : Option Int := none
  totalInteractions : Option Nat := none
deriving DecidableEq, Repr

structure InternalParticipant where
  email : String
  name : String
  role : String
deriving DecidableEq, Repr

structure ExecutiveSummary where
  whyThisMeetingMatters : String
  topGoals : List String
  redFlags : List String
deriving DecidableEq, Repr

structure StrategicInsights where
  whatsWorking : List String
  needsAttention : List String
  questionsToAsk : List String
  thingsToAvoid : List String
deriving DecidableEq, Repr

/-- The dossier's `CompetitiveIntel` section type. -/
structure DossierCompetitiveIntel where
  competitorsDetected : List String
  competitorMentions : Option (List String) := none
  watchList : List String
  notes : Option String := none
deriving DecidableEq, Repr

structure DossierMetadata where
  generatedAt : Int
  generatedBy : String
  dataSourcesUsed : List String
  dataSourcesFailed : Option (List String) := none
  processingTimeMs : Option Int := none
  version : String
deriving DecidableEq, Repr

structure Dossier where
  meeting : Meeting
  account : Account
  externalParticipants : List Participant
  internalParticipants : List InternalParticipant
  missingStakeholders : Option (List String) := none
  executiveSummary : ExecutiveSummary
  strategicInsights : StrategicInsights
  talkingPoints : List String
  competitiveIntel : Option DossierCompetitiveIntel := none
  metadata : DossierMetadata
deriving DecidableEq, Repr

/-- `DataSources.companyInfo` (field `recentNews` is never read by the
assembler and is omitted). -/
structure CompanyInfo where
  name : String
  domain : String
  description : Option String := none
  industry : Option String := none
  employeeCount : Option Int := none
  headquarters : Option String := none
deriving DecidableEq, Repr

structure DataSources where
  fireflies : FirefliesData
  slack : SlackData
  calendar : CalendarData
  personInfo : Option (List (String × PersonInfo)) := none
  companyInfo : Option CompanyInfo := none
deriving DecidableEq, Repr

/-- `DossierGenerationOptions` (only `daysOfHistory` is read by the assembler;
the other option fields are omitted). -/
structure DossierGenerationOptions where
  daysOfHistory : Option Nat := none
deriving DecidableEq, Repr

structure AssemblerContext where
  meeting : Meeting
  accountName : String
  accountDomain : String
  options : DossierGenerationOptions := {}
deriving DecidableEq, Repr

structure AssemblerIntermediate where
  mergedData : MergedData
  analysis : AccountAnalysis
  profiles : List (String × ParticipantProfile)
  goals : List Goal
  talkingPoints : List TalkingPoint
  competitiveIntel : CompetitiveIntel
deriving DecidableEq, Repr

structure AssemblerResult where
  dossier : Dossier
  intermediate : AssemblerIntermediate
deriving DecidableEq, Repr

def buildAccount (now : Int) (mergedData : MergedData) (analysis : AccountAnalysis)
    (companyInfo : Option CompanyInfo) : Account :=
  let partialAccount : MergedAccount :=
    { id := some (mergedData.account.domain.getD "unknown")
      name := some (mergedData.account.name.getD "")
      domain := some (mergedData.account.domain.getD "")
      dealStage := some (mergedData.account.dealStage.getD "unknown")
      dealValue := some (mergedData.account.dealValue.getD 0)
      closeDate := mergedData.account.closeDate
      daysInStage := some 0
      lastContactDate := some (mergedData.account.lastContactDate.getD now)
      momentum := some .stable
      contacts := some (mergedData.account.contacts.getD [])
      timeline := some (mergedData.account.timeline.getD [])
      openActionItems := some (mergedData.account.openActionItems.getD [])
      risks := some [] }
  let baseAccount := applyAnalysisToAccount now partialAccount analysis
  match companyInfo with
  | none => baseAccount
  | some info =>
      let baseAccount := { baseAccount with
        industry := info.industry
        employeeCount := info.employeeCount
        headquarters := info.headquarters }
      if optStrTruthy info.description then { baseAccount with notes := info.description }
      else baseAccount

def buildParticipantLists (attendees : List Attendee)
    (profiles : List (String × ParticipantProfile)) :
    List Participant × List InternalParticipant × List String :=
  let external := attendees.filterMap (fun attendee =>
    if isInternalEmailAsm attendee.email then none
    else
      let profile := alGet profiles attendee.email
      some ({ email := attendee.email
              name := (attendee.name.orElse (fun _ => profile.map (·.name))).getD ""
              company := (profile.map (·.company)).getD ""
              title := (profile.map (·.title)).getD ""
              role := (profile.map (·.role)).getD .unknown
              influence := (profile.map (·.influence)).getD .medium
              linkedInUrl := profile.bind (·.linkedInUrl)
              background := profile.bind (·.background)
              previousInteractions := (profile.map (·.previousInteractions)).getD []
              communicationNotes := profile.bind (·.communicationNotes)
              whatTheyCareAbout := profile.bind (·.whatTheyCareAbout)
              lastInteractionDate := profile.bind (·.lastInteractionDate)
              totalInteractions := profile.bind (·.totalInteractions) } : Participant))
  let internal := attendees.filterMap (fun attendee =>
    if isInternalEmailAsm attendee.email then
      let profile := alGet profiles attendee.email
      some ({ email := attendee.email
              name := (attendee.name.orElse (fun _ => profile.map (·.name))).getD ""
              role := "ae" } : InternalParticipant)
    else none)
  let missing := identifyMissingStakeholders profiles
  (external, internal, missing)

def formatDealValue (value : Int) : String :=
  if value ≥ 1000000 then
    -- `(value / 1_000_000).toFixed(1)`; ties rounded on the exact rational.
    let n10 := Int.fdiv (10 * value + 500000) 1000000
    let ip := Int.fdiv n10 10
    let fp := n10 % 10
    "$" ++ toString ip ++ "." ++ toString fp ++ "M"
  else if value ≥ 1000 then
    -- `(value / 1_000).toFixed(0)`.
    let k := Int.fdiv (value + 500) 1000
    "$" ++ toString k ++ "K"
  else
    "$" ++ toString value

def generateWhyThisMeetingMatters (account : Account) (analysis : AccountAnalysis) :
    String :=
  let stage := lowerStr account.dealStage
  let parts : List String := []
  let parts :=
    if containsStr stage "poc" || containsStr stage "pilot" then
      parts ++ [account.name ++ " is in active evaluation."]
    else if containsStr stage "negotiation" || containsStr stage "contract" then
      parts ++ [account.name ++ " is in late-stage negotiations."]
    else if containsStr stage "discovery" || containsStr stage "qualification" then
      parts ++ [account.name ++ " is in early discovery phase."]
    else parts
  let parts :=
    if analysis.momentum == .atRisk then
      parts ++ ["This deal is at risk and needs attention."]
    else if analysis.momentum == .accelerating then
      parts ++ ["Momentum is strong - maintain engagement."]
    else if analysis.momentum == .stalling then
      parts ++ ["Engagement has slowed - use this meeting to re-energize."]
    else parts
  let parts :=
    if account.dealValue > 0 then
      parts ++ ["Deal value: " ++ formatDealValue account.dealValue ++ "."]
    else parts
  let parts :=
    if analysis.daysSinceLastContact > 14 then
      let dsc := analysis.daysSinceLastContact
      parts ++ [s!"{dsc} days since last contact."]
    else parts
  let joined := joinSep " " parts
  if joined = "" then "Meeting with " ++ account.name ++ " - stay aligned and drive next steps."
  else joined

def buildExecutiveSummary (_meeting : Meeting) (account : Account) (goals : List Goal)
    (analysis : AccountAnalysis) : ExecutiveSummary :=
  let whyItMatters := generateWhyThisMeetingMatters account analysis
  let topGoals := ((goals.filter (fun g => g.priority ≤ 2)).take 3).map (·.title)
  let redFlags := ((analysis.risks.filter (fun r => r.severity == .high)).take 3).map
    (·.description)
  { whyThisMeetingMatters := whyItMatters, topGoals, redFlags }

def buildStrategicInsights (analysis : AccountAnalysis)
    (talkingPoints : List TalkingPoint)
    (profiles : List (String × ParticipantProfile)) : StrategicInsights :=
  let profileList := profiles.map Prod.snd
  let whatsWorking : List String := []
  let whatsWorking :=
    if analysis.momentum == .accelerating then whatsWorking ++ ["Strong engagement momentum"]
    else whatsWorking
  let whatsWorking :=
    if analysis.daysSinceLastContact < 7 then
      whatsWorking ++ ["Recent touchpoints maintaining relationship"]
    else whatsWorking
  let champions := profileList.filter (fun p => p.role == .champion)
  let whatsWorking :=
    match champions.head? with
    | some c => whatsWorking ++ ["Active champion: " ++ c.name]
    | none => whatsWorking
  let needsAttention := (analysis.risks.take 3).map (·.description)
  let goalSupport := getTalkingPointsByCategory talkingPoints .goalSupport
  let questionsToAsk := (goalSupport.take 3).filterMap (fun point =>
    match point.suggestedPhrasing with
    | some phrasing =>
        if containsStr phrasing "?" then some (stripQuotes phrasing) else none
    | none => none)
  let questionsToAsk :=
    if questionsToAsk.length = 0 then
      [ "What would success look like for you?"
      , "Are there any concerns we should address?" ]
    else questionsToAsk
  let thingsToAvoid : List String := []
  let blockers := profileList.filter (fun p => p.role == .blocker)
  let thingsToAvoid :=
    match blockers.head? with
    | some b => thingsToAvoid ++ ["Don't ignore " ++ b.name ++ "'s concerns"]
    | none => thingsToAvoid
  let thingsToAvoid :=
    if analysis.momentum == .atRisk then
      thingsToAvoid ++ ["Avoid being pushy - focus on understanding their situation"]
    else thingsToAvoid
  { whatsWorking, needsAttention, questionsToAsk, thingsToAvoid }

def buildCompetitiveSection (intel : CompetitiveIntel) :
    Option DossierCompetitiveIntel :=
  if intel.competitors.length = 0 ∧ intel.mentions.length = 0 then none
  else
    let competitorsDetected :=
      (((intel.competitors.filter
          (fun c => c.normalizedName ≠ "unknown competitor")).take 5).map (·.name))
    let competitorMentions := (intel.mentions.take 5).map (fun m =>
      m.competitor ++ ": " ++ takeStr m.context 100 ++ "...")
    let watchList := intel.risks.map (fun r => r.competitor ++ ": " ++ r.risk)
    some
      { competitorsDetected
        competitorMentions :=
          if competitorMentions.length > 0 then some competitorMentions else none
        watchList
        notes := some intel.competitiveLandscape }

def formatTalkingPointsForDossier (points : List TalkingPoint) : List String :=
  let top := (points.filter (fun p => p.priority ≤ 2)).take 7
  top.map (fun p =>
    match p.suggestedPhrasing with
    | some phrasing => p.point ++ "\n→ " ++ phrasing
    | none => p.point)

/-- `assembleDossier`, with the frozen wall clock `now` and the random
id-suffix stream `rand` explicit (with a frozen clock,
`processingTimeMs = Date.now() − startTime = 0`). -/
def assembleDossier (now : Int) (rand : Nat → String) (context : AssemblerContext)
    (sources : DataSources) : AssemblerResult :=
  let sourcesUsed : List String :=
    (if sources.fireflies.transcripts.length > 0 then ["Fireflies"] else []) ++
    (if sources.slack.messages.length > 0 || sources.slack.mentions.length > 0 then
      ["Slack"] else []) ++
    (if sources.calendar.events.length > 0 then ["Calendar"] else []) ++
    (if ((sources.personInfo.map List.length).getD 0) > 0 then ["Exa (People)"] else []) ++
    (if sources.companyInfo.isSome then ["Exa (Company)"] else [])
  let mergedData := mergeAllData sources.fireflies sources.slack sources.calendar
    { accountName := context.accountName
      accountDomain := context.accountDomain
      daysOfHistory := some (context.options.daysOfHistory.getD 30) } rand
  let analysis := analyzeAccount now mergedData
  let profiles := profileParticipants mergedData.participants sources.personInfo
  let goalContext : GoalContext :=
    { account := mergedData.account, analysis, participants := profiles, mergedData
      meetingTitle := some context.meeting.title }
  let goals := generateGoals goalContext
  let talkingPointContext : TalkingPointContext :=
    { account := mergedData.account, analysis, participants := profiles, mergedData
      goals, meetingTitle := some context.meeting.title }
  let talkingPoints := generateTalkingPoints talkingPointContext
  let competitiveIntel := extractCompetitiveIntel now
    { mergedData, accountName := context.accountName
      accountDomain := context.accountDomain }
  let account := buildAccount now mergedData analysis sources.companyInfo
  let lists := buildParticipantLists context.meeting.attendees profiles
  let executiveSummary := buildExecutiveSummary context.meeting account goals analysis
  let strategicInsights := buildStrategicInsights analysis talkingPoints profiles
  let competitiveSection := buildCompetitiveSection competitiveIntel
  let metadata : DossierMetadata :=
    { generatedAt := now
      generatedBy := "Sovereign Prep v0.1.0"
      dataSourcesUsed := sourcesUsed
      dataSourcesFailed := none
      processingTimeMs := some 0
      version := "1.0" }
  let dossier : Dossier :=
    { meeting := context.meeting
      account
      externalParticipants := lists.1
      internalParticipants := lists.2.1
      missingStakeholders := if lists.2.2.length > 0 then some lists.2.2 else none
      executiveSummary
      strategicInsights
      talkingPoints := formatTalkingPointsForDossier talkingPoints
      competitiveIntel := competitiveSection
      metadata }
  { dossier
    intermediate :=
      { mergedData, analysis, profiles, goals, talkingPoints, competitiveIntel } }

structure ValidationResult where
  isValid : Bool
  issues : List String
deriving DecidableEq, Repr

/-- `validateDossier`, its five sequential conditional pushes written as a
concatenation. -/
def validateDossier (dossier : Dossier) : ValidationResult :=
  let issues : List String :=
    (if dossier.meeting.title = "" then ["Missing meeting title"] else []) ++
    (if dossier.account.name = "" then ["Missing account name"] else []) ++
    (if dossier.externalParticipants.length = 0 then
      ["No external participants identified"] else []) ++
    (if dossier.executiveSummary.topGoals.length = 0 then
      ["No goals generated"] else []) ++
    (if dossier.talkingPoints.length = 0 then
      ["No talking points generated"] else [])
  { isValid := issues.length = 0, issues }

/-! ### General lemmas used by the claim proofs -/

theorem foldl_preserves {α β : Type} (P : β → Prop) (f : β → α → β)
    (h : ∀ b a, P b → P (f b a)) : ∀ (l : List α) (b : β), P b → P (l.foldl f b) := by
  intro l
  induction l with
  | nil => intro b hb; exact hb
  | cons a t ih => intro b hb; exact ih (f b a) (h b a hb)

/-- Keys of a `filterMap` that preserves first components form a sublist of
the original keys. -/
theorem filterMap_fst_sublist {α β γ : Type} (f : α × β → Option (α × γ))
    (h : ∀ p q, f p = some q → q.1 = p.1) (l : List (α × β)) :
    ((l.filterMap f).map Prod.fst).Sublist (l.map Prod.fst) := by
  induction l with
  | nil => simp
  | cons p t ih =>
      cases hf : f p with
      | none => simpa [List.filterMap_cons, hf] using ih.cons p.1
      | some q =>
          have : q.1 = p.1 := h p q hf
          simpa [List.filterMap_cons, hf, this] using ih.cons₂ p.1

theorem numberedMentions_map_competitor (event : TimelineEvent) (searchText : String) :
    ∀ (idNum : Nat) (l : List (String × String)),
      (numberedMentions event searchText idNum l).map (fun m => m.competitor) =
        l.map Prod.fst := by
  intro idNum l
  induction l generalizing idNum with
  | nil => rfl
  | cons ca rest ih => simp [numberedMentions, ih]

theorem pairwise_of_decide_le {α : Type} (key : α → Int) (l : List α)
    (h : List.Pairwise (fun x y => decide (key x ≤ key y) = true) l) :
    List.Pairwise (fun x y => key x ≤ key y) l :=
  h.imp (fun hd => of_decide_eq_true hd)

/-! ### Claim C1: run-to-run reproducibility of the full pipeline -/

/-- Concrete pipeline input for C1: one transcript, one action item assigned
to a customer address; the clock frozen at day 20000. -/
def c1Day : Int := 20000 * msPerDay

def c1Transcript : FFTranscript :=
  { id := "t1", title := "Kickoff call", date := c1Day - 2 * msPerDay, duration := 30
    participants := [], summary := some "Discussed timeline"
    actionItems := [{ text := "Send AWS IDs", assignee := some "user@toyota.com" }] }

def c1Context : AssemblerContext :=
  { meeting := { id := "m1", title := "Sync", datetime := c1Day, duration := 30
                 attendees := [{ email := "user@toyota.com", name := some "User" }] }
    accountName := "Toyota", accountDomain := "toyota.com" }

def c1Sources : DataSources :=
  { fireflies := ⟨[c1Transcript]⟩, slack := ⟨[], []⟩, calendar := ⟨[]⟩ }

/-- Two full-pipeline runs on byte-identical frozen input, differing only in
the `Math.random()` draws. -/
def c1Run (suffix : String) : AssemblerResult :=
  assembleDossier c1Day (fun _ => suffix) c1Context c1Sources

/-- C1 (code bug): `assembleDossier` run twice on byte-identical frozen input
is NOT reproducible — the goals' `relatedActionItems` ids differ between two
runs whose `Math.random()` draws differ, because `convertFirefliesActionItem`
embeds a random suffix in the action-item id and `generateActionItemGoals`
copies those ids into the goal.  (The claim — and the spec's own bug note —
say the ids should be identical across runs.) -/
theorem c1_pipeline_goal_ids_not_reproducible :
    ((c1Run "aaaaaa").intermediate.goals.map (fun g => g.relatedActionItems)) ≠
      ((c1Run "bbbbbb").intermediate.goals.map (fun g => g.relatedActionItems)) := by
  decide

/-! ### Claim C2: the momentum recency delta for `> 30` days -/

/-- A merged bundle with no participants, timeline or action items. -/
def c2EmptyBundle : MergedData :=
  { account := {}, participants := [], timeline := [], actionItems := [] }

/-- C2 (code bug): for `daysSinceLastContact = 31` and `= 100` (both `> 30`),
`calculateMomentumScore` applies the `−20` recency delta, not `−40`: the
result is `50 − 20 − 10 = 20` (the `−10` from zero participants), where the
claim's `−40` delta would give `0`.  The `> 30` branch of the source's
`else if` chain is unreachable because `> 14` catches every such value
first. -/
theorem c2_momentum_over30_gets_minus20 :
    calculateMomentumScore 0 c2EmptyBundle 31 = 20 ∧
    calculateMomentumScore 0 c2EmptyBundle 100 = 20 ∧
    calculateMomentumScore 0 c2EmptyBundle 31 ≠ 0 := by
  decide

/-! ### Claim C6: the all-empty-sources scenario -/

/-- C6 (confirmed): with all three source collections empty, for every frozen
clock, account name/domain and random stream, the analysis has
`daysSinceLastContact = 999`, momentum `at-risk`, and exactly the
stale-communication risk (high) followed by the limited-multithreading risk
(medium) — the participant count 0 is below 3. -/
theorem c6_empty_sources_analysis (now : Int) (options : MergeOptions)
    (rand : Nat → String) :
    (analyzeAccount now (mergeAllData ⟨[]⟩ ⟨[], []⟩ ⟨[]⟩ options rand)).daysSinceLastContact
        = 999 ∧
    (analyzeAccount now (mergeAllData ⟨[]⟩ ⟨[], []⟩ ⟨[]⟩ options rand)).momentum
        = .atRisk ∧
    (analyzeAccount now (mergeAllData ⟨[]⟩ ⟨[], []⟩ ⟨[]⟩ options rand)).risks.map
        (fun r => (r.id, r.severity))
      = [("risk-stale-comm", Severity.high), ("risk-single-thread", Severity.medium)] :=
  ⟨rfl, rfl, rfl⟩

/-! ### Claim C9: the dossier validator -/

/-- C9 (confirmed): `validateDossier` reports one issue per violated
minimum-content condition — empty meeting title, empty account name, zero
external participants, zero goals, zero talking points — all violations are
reported (each membership holds exactly when its condition is violated), and
`isValid` holds exactly when the issue list is empty. -/
theorem c9_validateDossier_reports_all_violations (d : Dossier) :
    (("Missing meeting title" ∈ (validateDossier d).issues) ↔ d.meeting.title = "") ∧
    (("Missing account name" ∈ (validateDossier d).issues) ↔ d.account.name = "") ∧
    (("No external participants identified" ∈ (validateDossier d).issues) ↔
      d.externalParticipants.length = 0) ∧
    (("No goals generated" ∈ (validateDossier d).issues) ↔
      d.executiveSummary.topGoals.length = 0) ∧
    (("No talking points generated" ∈ (validateDossier d).issues) ↔
      d.talkingPoints.length = 0) ∧
    ((validateDossier d).isValid = true ↔ (validateDossier d).issues = []) := by
  simp only [validateDossier]
  refine ⟨?_, ?_, ?_, ?_, ?_, ?_⟩ <;>
    split_ifs <;> simp_all +decide

/-! ### Claim C3: at most one competitor mention per event? -/

/-- A timeline event whose text contains aliases of two different known
competitors. -/
def c3Event : TimelineEvent :=
  { id := "e1", date := 0, type := .call, title := "Comparing Salesforce and HubSpot" }

/-- C3 (counterexample): an event mentioning both Salesforce and HubSpot
yields TWO `CompetitorMention`s, not one — the source's `break` exits only
the inner alias loop, so the outer dictionary loop continues with the next
competitor. -/
theorem c3_two_competitors_two_mentions :
    (extractMentionsFromEvent c3Event 1).map (fun m => m.competitor)
        = ["Salesforce", "HubSpot"] ∧
    (extractMentionsFromEvent c3Event 1).length ≠ 1 := by
  decide

theorem known_competitor_names_nodup : (KNOWN_COMPETITORS.map Prod.fst).Nodup := by
  decide

/-- C3 (amended): for every timeline event, the extractor counts at most one
mention per known competitor (the first alias of that competitor in its alias
list wins); distinct matched competitors each yield their own mention, so the
mentions' competitor names are pairwise distinct. -/
theorem c3_amended_one_mention_per_competitor (event : TimelineEvent) (startId : Nat) :
    ((extractMentionsFromEvent event startId).map (fun m => m.competitor)).Nodup := by
  simp only [extractMentionsFromEvent]
  split
  · exact List.nodup_singleton _
  · rw [numberedMentions_map_competitor]
    refine List.Nodup.sublist (filterMap_fst_sublist _ ?_ _) known_competitor_names_nodup
    intro p q hq
    cases hfind : p.2.find? (fun als =>
        containsStr (lowerStr (event.title ++ " " ++ event.description.getD "")) (lowerStr als)) with
    | none => rw [hfind] at hq; simp at hq
    | some als =>
        rw [hfind] at hq
        simp only [Option.map_some', Option.some.injEq] at hq
        rw [← hq]

/-! ### Claim C5: goal-list invariants -/

/-- The invariant of `deduplicateGoals`' fold: every emitted goal's key is in
the seen set, and the emitted keys are pairwise distinct. -/
def dedupInv (acc : List String × List Goal) : Prop :=
  (∀ g ∈ acc.2, goalKey g ∈ acc.1) ∧
  List.Pairwise (fun a b => goalKey a ≠ goalKey b) acc.2

theorem dedupGoalsStep_preserves (acc : List String × List Goal) (g : Goal)
    (h : dedupInv acc) : dedupInv (dedupGoalsStep acc g) := by
  obtain ⟨h1, h2⟩ := h
  unfold dedupGoalsStep
  by_cases hm : goalKey g ∈ acc.1
  · simpa [hm] using ⟨h1, h2⟩
  · simp only [hm, if_neg, if_false, not_false_iff]
    constructor
    · intro x hx
      rcases List.mem_append.mp hx with hx | hx
      · exact List.mem_append_left _ (h1 x hx)
      · rcases List.mem_singleton.mp hx with rfl
        exact List.mem_append_right _ (List.mem_singleton.mpr rfl)
    · rw [List.pairwise_append]
      refine ⟨h2, List.pairwise_singleton _ _, ?_⟩
      intro a ha b hb
      rcases List.mem_singleton.mp hb with rfl
      intro hco
      exact hm (hco ▸ h1 a ha)

theorem deduplicateGoals_pairwise (goals : List Goal) :
    List.Pairwise (fun a b => goalKey a ≠ goalKey b) (deduplicateGoals goals) :=
  (foldl_preserves dedupInv dedupGoalsStep dedupGoalsStep_preserves goals ([], [])
    ⟨by simp, List.Pairwise.nil⟩).2

theorem goalPriorityLe_total (a b : Goal) :
    decide (a.priority ≤ b.priority) = true ∨ decide (b.priority ≤ a.priority) = true := by
  rcases Nat.le_total a.priority b.priority with h | h
  · exact Or.inl (decide_eq_true h)
  · exact Or.inr (decide_eq_true h)

theorem goalPriorityLe_trans (a b c : Goal)
    (hab : decide (a.priority ≤ b.priority) = true)
    (hbc : decide (b.priority ≤ c.priority) = true) :
    decide (a.priority ≤ c.priority) = true :=
  decide_eq_true (Nat.le_trans (of_decide_eq_true hab) (of_decide_eq_true hbc))

/-- C5 (confirmed): `generateGoals` returns at most 5 goals, sorted ascending
by priority, and no two returned goals share the same lowercase
first-30-character title prefix (`goalKey`); the dedup pass keeps the first
occurrence. -/
theorem c5_generateGoals_invariants (context : GoalContext) :
    (generateGoals context).length ≤ 5 ∧
    List.Pairwise (fun a b => a.priority ≤ b.priority) (generateGoals context) ∧
    List.Pairwise (fun a b => goalKey a ≠ goalKey b) (generateGoals context) := by
  refine ⟨?_, ?_, ?_⟩
  · simp only [generateGoals]
    rw [List.length_take]
    exact min_le_left _ _
  · simp only [generateGoals]
    refine List.Pairwise.sublist (List.take_sublist _ _) ?_
    exact (pairwise_stableSortBy (fun a b : Goal => decide (a.priority ≤ b.priority))
      goalPriorityLe_total goalPriorityLe_trans _).imp of_decide_eq_true
  · simp only [generateGoals]
    refine List.Pairwise.sublist (List.take_sublist _ _) ?_
    refine ((stableSortBy_perm _ _).pairwise_iff ?_).mpr (deduplicateGoals_pairwise _)
    exact fun h => Ne.symm h

/-! ### Claim C7: action-follow-up talking points -/

def c7ItemTheirs : ActionItem :=
  { id := "a1", description := "Send data", owner := .theirs, createdDate := 0
    status := .overdue, daysOverdue := some 3 }

def c7ItemOurs : ActionItem :=
  { id := "a2", description := "Send quote", owner := .ours, createdDate := 0
    status := .overdue, daysOverdue := some 2 }

def c7Analysis : AccountAnalysis :=
  { momentum := .stable, momentumScore := 50, engagementVelocity := .low
    daysInStage := 0, daysSinceLastContact := 0, risks := [], healthScore := 50
    insights := [] }

/-- A talking-point context holding one overdue customer item and one overdue
item of ours. -/
def c7Ctx : TalkingPointContext :=
  { account := {}, analysis := c7Analysis, participants := []
    mergedData := { account := {}, participants := [], timeline := []
                    actionItems := [c7ItemTheirs, c7ItemOurs] }
    goals := [] }

/-- C7 (counterexample): when both an overdue-theirs and an overdue-ours item
exist, the category emits BOTH points (the source has no `else` between the
two pushes), not only the overdue-theirs point as the claim states. -/
theorem c7_both_overdue_points_emitted :
    generateActionFollowUpPoints c7Ctx =
      [overdueTheirsPoint c7ItemTheirs, overdueOursPoint c7ItemOurs] ∧
    (generateActionFollowUpPoints c7Ctx).length ≠ 1 := by
  decide

/-- C7 (amended): the action-follow-up category contains a priority-1 point
for the first overdue customer-owned item whenever one exists, independently
a priority-1 acknowledgement point for the first overdue own item whenever
one exists (both are emitted when both exist), and a priority-3 count-only
point for pending customer items whenever some are pending and no
customer-owned item is overdue. -/
theorem c7_amended_follow_up_points (context : TalkingPointContext) :
    (∀ item,
      (((context.mergedData.actionItems.filter
          (fun i => i.status == .pending || i.status == .overdue)).filter
          (fun i => i.owner == .theirs && i.status == .overdue)).head? = some item) →
        overdueTheirsPoint item ∈ generateActionFollowUpPoints context) ∧
    (∀ item,
      (((context.mergedData.actionItems.filter
          (fun i => i.status == .pending || i.status == .overdue)).filter
          (fun i => i.owner == .ours && i.status == .overdue)).head? = some item) →
        overdueOursPoint item ∈ generateActionFollowUpPoints context) ∧
    ((((context.mergedData.actionItems.filter
          (fun i => i.status == .pending || i.status == .overdue)).filter
          (fun i => i.owner == .theirs && i.status == .pending)).length > 0 ∧
      ((context.mergedData.actionItems.filter
          (fun i => i.status == .pending || i.status == .overdue)).filter
          (fun i => i.owner == .theirs && i.status == .overdue)).length = 0) →
        pendingTheirsPoint
          ((context.mergedData.actionItems.filter
              (fun i => i.status == .pending || i.status == .overdue)).filter
              (fun i => i.owner == .theirs && i.status == .pending)).length ∈
          generateActionFollowUpPoints context) := by
  refine ⟨?_, ?_, ?_⟩ <;> simp only [generateActionFollowUpPoints]
  · intro item h
    rw [h]
    simp
  · intro item h
    rw [h]
    cases (((context.mergedData.actionItems.filter
        (fun i => i.status == .pending || i.status == .overdue)).filter
        (fun i => i.owner == .theirs && i.status == .overdue)).head?) <;> simp
  · intro h
    rw [if_pos h]
    simp

/-- A context with one pending customer item and nothing overdue, for the
count-only conjunct of the C7 witness. -/
def c7CtxPending : TalkingPointContext :=
  { account := {}, analysis := c7Analysis, participants := []
    mergedData := { account := {}, participants := [], timeline := []
                    actionItems := [{ id := "a3", description := "Review doc"
                                      owner := .theirs, createdDate := 0
                                      status := .pending }] }
    goals := [] }

/-- Witness for C7's amended theorem at the two concrete contexts. -/
theorem c7_amended_follow_up_points_witness :
    overdueTheirsPoint c7ItemTheirs ∈ generateActionFollowUpPoints c7Ctx ∧
    overdueOursPoint c7ItemOurs ∈ generateActionFollowUpPoints c7Ctx ∧
    pendingTheirsPoint 1 ∈ generateActionFollowUpPoints c7CtxPending := by
  refine ⟨(c7_amended_follow_up_points c7Ctx).1 c7ItemTheirs (by decide),
         (c7_amended_follow_up_points c7Ctx).2.1 c7ItemOurs (by decide),
         ?_⟩
  have h := (c7_amended_follow_up_points c7CtxPending).2.2 (by decide)
  exact h

/-! ### Claim C8: the opener referencing the latest timeline event -/

def c8Event : TimelineEvent :=
  { id := "e1", date := 0, type := .call, title := "Last call" }

def c8Analysis : AccountAnalysis :=
  { momentum := .stable, momentumScore := 50, engagementVelocity := .low
    daysInStage := 0, daysSinceLastContact := 14, risks := [], healthScore := 50
    insights := [] }

/-- A talking-point context with a non-empty timeline and
`daysSinceLastContact` exactly 14. -/
def c8Ctx : TalkingPointContext :=
  { account := {}, analysis := c8Analysis, participants := []
    mergedData := { account := {}, participants := [], timeline := [c8Event]
                    actionItems := [] }
    goals := [] }

/-- C8 (counterexample): at `daysSinceLastContact = 14` exactly (with a
non-empty timeline), NO opener is emitted at all — the source's guard is the
strict `< 14`, not the claim's `≤ 14`. -/
theorem c8_no_opener_at_exactly_14 : generateOpeners c8Ctx = [] := by
  decide

/-- C8 (amended): whenever `daysSinceLastContact` is strictly below 14 and
the timeline is non-empty, the openers contain the priority-1 point
referencing the latest timeline event. -/
theorem c8_amended_opener_below_14 (context : TalkingPointContext)
    (lastEvent : TimelineEvent)
    (hlast : context.mergedData.timeline.getLast? = some lastEvent)
    (hlt : context.analysis.daysSinceLastContact < 14) :
    referenceLastInteractionPoint lastEvent context.analysis.daysSinceLastContact ∈
      generateOpeners context := by
  simp only [generateOpeners]
  have hne : context.mergedData.timeline ≠ [] := by
    intro he
    rw [he] at hlast
    simp at hlast
  have hpos : context.mergedData.timeline.length > 0 := List.length_pos.mpr hne
  rw [if_pos ⟨hlt, hpos⟩, hlast]
  simp

def c8AnalysisRecent : AccountAnalysis :=
  { c8Analysis with daysSinceLastContact := 2 }

def c8CtxRecent : TalkingPointContext :=
  { c8Ctx with analysis := c8AnalysisRecent }

/-- Witness for C8's amended theorem at a concrete context two days after the
last contact. -/
theorem c8_amended_opener_below_14_witness :
    referenceLastInteractionPoint c8Event 2 ∈ generateOpeners c8CtxRecent :=
  c8_amended_opener_below_14 c8CtxRecent c8Event (by decide) (by decide)

/-! ### Claim C4: merger invariants -/

def participantKeys (r : MergedData) : List String := r.participants.map Prod.fst

theorem ffParticipantStep_keys (t : FFTranscript)
    (ps : List (String × PartialParticipant)) (email : String)
    (h : (ps.map Prod.fst).Nodup) :
    (((ffParticipantStep t ps email).map Prod.fst)).Nodup := by
  unfold ffParticipantStep
  by_cases hi : isInternalEmail email
  · simpa [hi] using h
  · simpa [hi] using alSet_keys_nodup ps email _ h

theorem calAttendeeStep_keys (ps : List (String × PartialParticipant))
    (attendee : CalAttendee) (h : (ps.map Prod.fst).Nodup) :
    (((calAttendeeStep ps attendee).map Prod.fst)).Nodup := by
  unfold calAttendeeStep
  by_cases hi : isInternalEmail attendee.email
  · simpa [hi] using h
  · simpa [hi] using alSet_keys_nodup ps attendee.email _ h

theorem ffProcessTranscript_keys (rand : Nat → String) (acc : MergedData × Nat)
    (t : FFTranscript) (h : (participantKeys acc.1).Nodup) :
    (participantKeys (ffProcessTranscript rand acc t).1).Nodup := by
  show ((t.participants.foldl (ffParticipantStep t) acc.1.participants).map Prod.fst).Nodup
  exact foldl_preserves (fun ps => (ps.map Prod.fst).Nodup) (ffParticipantStep t)
    (fun ps email hp => ffParticipantStep_keys t ps email hp) t.participants
    acc.1.participants h

theorem calProcessEvent_keys (options : MergeOptions) (r : MergedData)
    (event : CalendarEvent) (h : (participantKeys r).Nodup) :
    (participantKeys (calProcessEvent options r event)).Nodup := by
  simp only [calProcessEvent]
  split
  · exact h
  · show ((event.attendees.foldl calAttendeeStep r.participants).map Prod.fst).Nodup
    exact foldl_preserves (fun ps => (ps.map Prod.fst).Nodup) calAttendeeStep
      (fun ps a hp => calAttendeeStep_keys ps a hp) event.attendees r.participants h

theorem deduplicateParticipants_keys (r : MergedData) :
    participantKeys (deduplicateParticipants r) = participantKeys r := by
  show (r.participants.map dedupOneParticipant).map Prod.fst = r.participants.map Prod.fst
  rw [List.map_map]
  rfl

theorem dateLe_total (a b : TimelineEvent) :
    decide (a.date ≤ b.date) = true ∨ decide (b.date ≤ a.date) = true := by
  rcases Int.le_total a.date b.date with h | h
  · exact Or.inl (decide_eq_true h)
  · exact Or.inr (decide_eq_true h)

theorem dateLe_trans (a b c : TimelineEvent)
    (hab : decide (a.date ≤ b.date) = true) (hbc : decide (b.date ≤ c.date) = true) :
    decide (a.date ≤ c.date) = true :=
  decide_eq_true (Int.le_trans (of_decide_eq_true hab) (of_decide_eq_true hbc))

/-- Two transcripts naming the same address in different letter case. -/
def c4Transcript1 : FFTranscript :=
  { id := "t1", title := "Call 1", date := 0, duration := 10
    participants := ["Alice@toyota.com"] }

def c4Transcript2 : FFTranscript :=
  { id := "t2", title := "Call 2", date := msPerDay, duration := 10
    participants := ["alice@toyota.com"] }

def c4Merged : MergedData :=
  mergeAllData ⟨[c4Transcript1, c4Transcript2]⟩ ⟨[], []⟩ ⟨[]⟩
    ⟨"Toyota", "toyota.com", none⟩ (fun _ => "x")

/-- C4 (counterexample): the registry keys participants by the raw email
string — two records naming the same address in different letter case get TWO
registry entries, and a key need not be lowercase. -/
theorem c4_case_variant_emails_not_merged :
    participantKeys c4Merged = ["Alice@toyota.com", "alice@toyota.com"] ∧
    lowerStr "Alice@toyota.com" ≠ "Alice@toyota.com" := by
  decide

/-- C4 (amended): for every merger input, the returned timeline is sorted
ascending by event date, and the participant registry's keys are unique —
but the keys are the raw (case-preserving) email strings, not lowercased. -/
theorem c4_amended_merge_invariants (fireflies : FirefliesData) (slack : SlackData)
    (calendar : CalendarData) (options : MergeOptions) (rand : Nat → String) :
    List.Pairwise (fun a b : TimelineEvent => a.date ≤ b.date)
      (mergeAllData fireflies slack calendar options rand).timeline ∧
    (participantKeys (mergeAllData fireflies slack calendar options rand)).Nodup := by
  constructor
  · show List.Pairwise _
      (stableSortBy (fun a b : TimelineEvent => decide (a.date ≤ b.date)) _)
    exact (pairwise_stableSortBy _ dateLe_total dateLe_trans _).imp of_decide_eq_true
  · have h1 : (participantKeys
        (mergeFirefliesData rand (initMergedData options) 0 fireflies).1).Nodup :=
      foldl_preserves (fun acc => (participantKeys acc.1).Nodup)
        (ffProcessTranscript rand)
        (fun acc t hp => ffProcessTranscript_keys rand acc t hp)
        fireflies.transcripts ((initMergedData options), 0)
        (show (participantKeys (initMergedData options)).Nodup from List.nodup_nil)
    have hslack : (participantKeys
        (mergeSlackData (mergeFirefliesData rand (initMergedData options) 0 fireflies).1
          slack options)).Nodup := h1
    have h2 : (participantKeys
        (mergeCalendarData
          (mergeSlackData (mergeFirefliesData rand (initMergedData options) 0 fireflies).1
            slack options) calendar options)).Nodup :=
      foldl_preserves (fun r => (participantKeys r).Nodup)
        (calProcessEvent options)
        (fun r e hp => calProcessEvent_keys options r e hp)
        calendar.events _ hslack
    show (participantKeys (computeAccountMetrics (sortTimeline (deduplicateParticipants
      (mergeCalendarData (mergeSlackData (mergeFirefliesData rand (initMergedData options)
        0 fireflies).1 slack options) calendar options))))).Nodup
    show (participantKeys (deduplicateParticipants
      (mergeCalendarData (mergeSlackData (mergeFirefliesData rand (initMergedData options)
        0 fireflies).1 slack options) calendar options))).Nodup
    rw [deduplicateParticipants_keys]
    exact h2

/-! ### Claim C10: every action item in the assembled output is pending -/

theorem calProcessEvent_actionItems (options : MergeOptions) (r : MergedData)
    (event : CalendarEvent) :
    (calProcessEvent options r event).actionItems = r.actionItems := by
  simp only [calProcessEvent]
  split <;> rfl

theorem ffProcessTranscript_pending (rand : Nat → String) (acc : MergedData × Nat)
    (t : FFTranscript)
    (h : acc.1.actionItems.all (fun a => a.status == .pending) = true) :
    ((ffProcessTranscript rand acc t).1.actionItems.all
      (fun a => a.status == .pending)) = true := by
  show ((acc.1.actionItems ++
      (t.actionItems.foldl (ffActionItemStep rand t) ([], acc.2)).1).all
      (fun a => a.status == .pending)) = true
  rw [List.all_append, h]
  refine foldl_preserves
    (fun p : List ActionItem × Nat => p.1.all (fun a => a.status == Status.pending) = true)
    (ffActionItemStep rand t) ?_ t.actionItems ([], acc.2) rfl
  intro p item hp
  show ((p.1 ++ [convertFirefliesActionItem (rand p.2) item t]).all
      (fun a => a.status == Status.pending)) = true
  rw [List.all_append, hp]
  rfl

theorem mergeAllData_actionItems_pending (fireflies : FirefliesData)
    (slack : SlackData) (calendar : CalendarData) (options : MergeOptions)
    (rand : Nat → String) :
    ((mergeAllData fireflies slack calendar options rand).actionItems.all
      (fun a => a.status == .pending)) = true := by
  show ((mergeCalendarData (mergeSlackData
      (mergeFirefliesData rand (initMergedData options) 0 fireflies).1 slack options)
      calendar options).actionItems.all (fun a => a.status == .pending)) = true
  have hcal : ∀ r : MergedData,
      (mergeCalendarData r calendar options).actionItems = r.actionItems := by
    intro r
    exact foldl_preserves (fun x : MergedData => x.actionItems = r.actionItems)
      (calProcessEvent options)
      (fun b a hb => by
        show (calProcessEvent options b a).actionItems = r.actionItems
        rw [calProcessEvent_actionItems]
        exact hb)
      calendar.events r rfl
  rw [hcal]
  show ((mergeFirefliesData rand (initMergedData options) 0 fireflies).1.actionItems.all
      (fun a => a.status == .pending)) = true
  exact foldl_preserves
    (fun acc : MergedData × Nat =>
      acc.1.actionItems.all (fun a => a.status == Status.pending) = true)
    (ffProcessTranscript rand)
    (fun b a hb => ffProcessTranscript_pending rand b a hb)
    fireflies.transcripts (initMergedData options, 0) rfl

theorem buildAccount_openActionItems (now : Int) (md : MergedData)
    (an : AccountAnalysis) (ci : Option CompanyInfo) :
    (buildAccount now md an ci).openActionItems = md.account.openActionItems.getD [] := by
  cases ci with
  | none => rfl
  | some info =>
      simp only [buildAccount]
      split <;> rfl

theorem mergeAllData_account_openActionItems (fireflies : FirefliesData)
    (slack : SlackData) (calendar : CalendarData) (options : MergeOptions)
    (rand : Nat → String) :
    (mergeAllData fireflies slack calendar options rand).account.openActionItems =
      some ((mergeAllData fireflies slack calendar options rand).actionItems.filter
        isOpenItem) := rfl

/-- C10 (confirmed): in every dossier the full `assembleDossier` pipeline
produces, every action item has status `pending` — all items are created
pending by `convertFirefliesActionItem` and the orchestrator never invokes
`markOverdueItems` — so no `overdue`-conditioned rule can fire through the
full pipeline. -/
theorem c10_all_action_items_pending (now : Int) (rand : Nat → String)
    (context : AssemblerContext) (sources : DataSources) :
    ((assembleDossier now rand context sources).dossier.account.openActionItems.all
      (fun a => a.status == .pending)) = true ∧
    ((assembleDossier now rand context sources).intermediate.mergedData.actionItems.all
      (fun a => a.status == .pending)) = true := by
  have hMD := mergeAllData_actionItems_pending sources.fireflies sources.slack
    sources.calendar
    ⟨context.accountName, context.accountDomain, some (context.options.daysOfHistory.getD 30)⟩
    rand
  constructor
  · show ((buildAccount now
        (mergeAllData sources.fireflies sources.slack sources.calendar
          ⟨context.accountName, context.accountDomain,
            some (context.options.daysOfHistory.getD 30)⟩ rand)
        (analyzeAccount now
          (mergeAllData sources.fireflies sources.slack sources.calendar
            ⟨context.accountName, context.accountDomain,
              some (context.options.daysOfHistory.getD 30)⟩ rand))
        sources.companyInfo).openActionItems.all (fun a => a.status == .pending)) = true
    rw [buildAccount_openActionItems, mergeAllData_account_openActionItems,
      Option.getD_some]
    rw [List.all_eq_true] at hMD ⊢
    intro a ha
    exact hMD a (List.mem_of_mem_filter ha)
  · exact hMD

end SP
